import Mathlib

/-!
Verification of the smart-agriculture monitoring system (Task2):
a shallow embedding of `sensor_simulator.py`, `ai_models.py` and
`smart_agriculture_system.py` in Lean 4, with theorems settling the
behavioural claims about sensor simulation, yield prediction, status
derivation, alerting and irrigation.

Modelling conventions:
* Python floats are modelled as exact rationals (`ℚ`); `round(x, 2)` is
  modelled by `round2` (floor of `100*x + 1/2` over 100 - tie-breaking at
  exact half-cents differs from IEEE-754 `round`, and no claim below
  depends on a tie).
* Python strings are Lean `String`s; `needle in hay` is `pyContains`
  and `hay.startswith(p)` is `pyStartsWith`, both defined on the
  underlying character lists.
* Randomness (`random.uniform`, `random.random`, `random.choice`,
  `datetime.now`, `time.time`) is threaded explicitly: every random
  draw and every timestamp is an input of the function that consumes it.
* `time.time()` timestamps are natural numbers; distinct calls may
  return the same integer second, exactly as in the source.
-/

/-- Model of Python `round(x, 2)`: round to the nearest multiple of 1/100. -/
def round2 (q : ℚ) : ℚ := ((q * 100 + 1/2).floor : ℤ) / 100

theorem intFloor_eq_ratFloor (q : ℚ) : ⌊q⌋ = q.floor := by
  rw [Rat.floor_def, Rat.floor_def']

theorem round2_eq_floor (q : ℚ) : round2 q = ((⌊q * 100 + 1/2⌋ : ℤ) : ℚ) / 100 := by
  rw [round2, intFloor_eq_ratFloor]

theorem round2_mono : Monotone round2 := by
  intro a b hab
  rw [round2_eq_floor, round2_eq_floor]
  have h : (⌊a * 100 + 1/2⌋ : ℤ) ≤ ⌊b * 100 + 1/2⌋ := Int.floor_le_floor (by linarith)
  have h2 : ((⌊a * 100 + 1/2⌋ : ℤ) : ℚ) ≤ ((⌊b * 100 + 1/2⌋ : ℤ) : ℚ) := by exact_mod_cast h
  linarith

theorem round2_intCast (n : ℤ) : round2 (n : ℚ) = (n : ℚ) := by
  rw [round2_eq_floor]
  have h : ⌊(n : ℚ) * 100 + 1/2⌋ = 100 * n := by
    rw [Int.floor_eq_iff]
    · constructor
      · push_cast
        linarith
      · push_cast
        linarith
  rw [h]
  push_cast
  ring

theorem round2_sub_le (q : ℚ) : round2 q - q ≤ 1/200 := by
  rw [round2_eq_floor]
  have h := Int.floor_le (q * 100 + 1/2)
  rw [div_sub' _ _ _ (by norm_num : (100:ℚ) ≠ 0), div_le_iff₀ (by norm_num : (0:ℚ) < 100)]
  linarith

theorem le_round2_add (q : ℚ) : q - 1/200 ≤ round2 q := by
  rw [round2_eq_floor]
  have h := Int.lt_floor_add_one (q * 100 + 1/2)
  rw [le_div_iff₀ (by norm_num : (0:ℚ) < 100)]
  linarith

theorem round2_nonneg (q : ℚ) (hq : 0 ≤ q) : 0 ≤ round2 q := by
  have h := round2_mono hq
  have h0 : round2 0 = 0 := by
    have := round2_intCast 0
    simpa using this
  rw [h0] at h
  exact h

/-- Model of Python `needle in hay` on character lists. -/
def pyContainsL (needle : List Char) : List Char → Bool
  | [] => needle.isEmpty
  | c :: t => needle.isPrefixOf (c :: t) || pyContainsL needle t

/-- Model of Python substring test `needle in hay`. -/
def pyContains (hay needle : String) : Bool := pyContainsL needle.data hay.data

/-- Model of Python `hay.startswith(p)`. -/
def pyStartsWith (hay p : String) : Bool := p.data.isPrefixOf hay.data

theorem pyContainsL_iff (needle hay : List Char) :
    pyContainsL needle hay = true ↔ needle <:+: hay := by
  induction hay with
  | nil => simp [pyContainsL, List.isEmpty_iff, List.infix_nil]
  | cons c t ih =>
    simp only [pyContainsL, Bool.or_eq_true, List.isPrefixOf_iff_prefix, ih]
    constructor
    · rintro (h | h)
      · exact List.IsPrefix.isInfix h
      · exact List.IsInfix.trans h (List.IsSuffix.isInfix (List.suffix_cons c t))
    · intro h
      rcases List.infix_cons_iff.mp h with h | h
      · exact Or.inl h
      · exact Or.inr h

theorem pyContains_iff (hay needle : String) :
    pyContains hay needle = true ↔ needle.data <:+: hay.data :=
  pyContainsL_iff _ _

theorem pyContains_append_left (a b n : String) (h : pyContains a n = true) :
    pyContains (a ++ b) n = true := by
  rw [pyContains_iff] at h ⊢
  rw [String.data_append]
  exact List.IsInfix.trans h (List.IsPrefix.isInfix (List.prefix_append _ _))

theorem pyContains_head (n rest : String) : pyContains (n ++ rest) n = true := by
  rw [pyContains_iff, String.data_append]
  exact List.IsPrefix.isInfix (List.prefix_append _ _)

/-- Decimal-like rendering of a rational into a message string; stands in
for Python float interpolation in f-strings (exact formatting of binary
floats is not modelled, only which value is mentioned). -/
def ratRepr (q : ℚ) : String :=
  if q.den = 1 then
    (if q.num < 0 then "-" else "") ++ Nat.repr q.num.natAbs
  else
    (if q.num < 0 then "-" else "") ++ Nat.repr q.num.natAbs ++ "/" ++ Nat.repr q.den

/-! ## Data model (`agriculture_types.py`) -/

/-- One record of the `SensorData` dataclass; `optimal_range` is split into
its two components. -/
structure SensorData where
  id : String
  name : String
  value : ℚ
  unit : String
  optMin : ℚ
  optMax : ℚ
  lastUpdated : ℕ
  status : String
deriving DecidableEq, Repr

/-- The `CropData` dataclass. -/
structure CropData where
  cropType : String
  plantedDate : ℕ
  expectedHarvest : ℕ
  predictedYield : ℚ
  healthScore : ℚ
  growthStage : String
  healthStatus : String
deriving DecidableEq, Repr

/-- The `SystemAlert` dataclass. -/
structure SystemAlert where
  id : String
  type : String
  message : String
  timestamp : ℕ
  resolved : Bool
deriving DecidableEq, Repr

/-! ## Yield predictor (`ai_models.py`), pure helper functions -/

/-- `CropYieldPredictor.normalize_sensor_value`. -/
def normalize_sensor_value (value : ℚ) (optimal_range : ℚ × ℚ) : ℚ :=
  let min_optimal := optimal_range.1
  let max_optimal := optimal_range.2
  if min_optimal ≤ value ∧ value ≤ max_optimal then 1
  else if value < min_optimal then max 0 (value / min_optimal)
  else max 0 (max_optimal / value)

/-- `CropYieldPredictor.calculate_temperature_factor`. -/
def calculate_temperature_factor (temp : ℚ) (optimal_range : ℚ × ℚ) (sensitivity : ℚ) : ℚ :=
  let optimal_temp := (optimal_range.1 + optimal_range.2) / 2
  let temp_deviation := |temp - optimal_temp| / optimal_temp
  max (1/10) (1 - temp_deviation * sensitivity * (1/2))

/-- `CropYieldPredictor.calculate_water_factor`. -/
def calculate_water_factor (moisture : ℚ) (optimal_range : ℚ × ℚ) (water_need : ℚ) : ℚ :=
  max (1/10)
    (if moisture < optimal_range.1 then (moisture / optimal_range.1) * water_need
     else if moisture > optimal_range.2 then
       1 - ((moisture - optimal_range.2) / optimal_range.2) * (3/10)
     else 1)

/-- `CropYieldPredictor.get_growth_stage_factor`. -/
def get_growth_stage_factor (growth_stage : String) : ℚ :=
  if growth_stage = "Seedling" then 3/10
  else if growth_stage = "Vegetative" then 6/10
  else if growth_stage = "Flowering" then 9/10
  else if growth_stage = "Fruiting" then 1
  else if growth_stage = "Maturation" then 1
  else if growth_stage = "Harvest" then 1
  else 8/10

/-! ## Sensor status rule (`smart_agriculture_system.py`, `update_sensor_status`) -/

/-- `SmartAgricultureSystem.update_sensor_status`: derive the status of a
sensor from its value against its optimal range. -/
def update_sensor_status (s : SensorData) : SensorData :=
  if s.value < s.optMin * (8/10) ∨ s.value > s.optMax * (12/10) then
    { s with status := "critical" }
  else if s.value < s.optMin * (9/10) ∨ s.value > s.optMax * (11/10) then
    { s with status := "warning" }
  else
    { s with status := "optimal" }

/-- Claim C2: `update_sensor_status` sets status to critical exactly when the
value is below 80% of the optimal minimum or above 120% of the optimal
maximum, to warning exactly when it is not critical but below 90% of the
minimum or above 110% of the maximum, and to optimal otherwise; and for a
sensor with positive optimal maximum (as every configured sensor has), a
value of 1.3 times the optimal maximum is classified critical. -/
theorem update_sensor_status_thresholds :
    (∀ s : SensorData,
      ((update_sensor_status s).status = "critical" ↔
        s.value < s.optMin * (8/10) ∨ s.value > s.optMax * (12/10)) ∧
      ((update_sensor_status s).status = "warning" ↔
        ¬(s.value < s.optMin * (8/10) ∨ s.value > s.optMax * (12/10)) ∧
        (s.value < s.optMin * (9/10) ∨ s.value > s.optMax * (11/10))) ∧
      ((update_sensor_status s).status = "optimal" ↔
        ¬(s.value < s.optMin * (8/10) ∨ s.value > s.optMax * (12/10)) ∧
        ¬(s.value < s.optMin * (9/10) ∨ s.value > s.optMax * (11/10)))) ∧
    (∀ s : SensorData, 0 < s.optMax → s.value = s.optMax * (13/10) →
      (update_sensor_status s).status = "critical") := by
  constructor
  · intro s
    unfold update_sensor_status
    split_ifs with h1 h2 <;>
      refine ⟨?_, ?_, ?_⟩ <;> simp_all
  · intro s hpos hval
    unfold update_sensor_status
    have h : s.value > s.optMax * (12/10) := by rw [hval]; nlinarith
    rw [if_pos (Or.inr h)]

/-- Witness for C2: the system's soil-moisture sensor (optimal range
20-40) at value 52 = 40 * 1.3 is critical. -/
theorem update_sensor_status_thresholds_witness :
    (update_sensor_status
      { id := "soil_moisture", name := "Soil Moisture", value := 52, unit := "%",
        optMin := 20, optMax := 40, lastUpdated := 0, status := "optimal" }).status 
      = "critical" :=
  update_sensor_status_thresholds.2
    { id := "soil_moisture", name := "Soil Moisture", value := 52, unit := "%",
      optMin := 20, optMax := 40, lastUpdated := 0, status := "optimal" }
    (by norm_num) (by norm_num)

/-- Claim C5, counterexample: for the optimal range (-10, -5) the value -20
lies below the range, yet `normalize_sensor_value` returns 2, which is not
in [0, 1). The claim as stated quantifies over every optimal range; it only
holds for ranges with positive minimum (as all configured sensors have). -/
theorem normalize_sensor_value_cex :
    ¬((-10 : ℚ) ≤ -20 ∧ (-20 : ℚ) ≤ -5) ∧
    normalize_sensor_value (-20) (-10, -5) = 2 ∧
    ¬(normalize_sensor_value (-20) (-10, -5) < 1) := by
  refine ⟨by norm_num, ?_, ?_⟩ <;> norm_num [normalize_sensor_value]

/-- Claim C5, amended: for every value and every optimal range (min, max)
with 0 < min ≤ max, `normalize_sensor_value` returns exactly 1 when
min ≤ value ≤ max; below the range it returns max 0 (value/min) and above
the range max 0 (max/value), in both cases a number in [0, 1) that is
monotonically decreasing as the distance from the range grows. -/
theorem normalize_sensor_value_spec (mn mx v : ℚ) (hmn : 0 < mn) (hle : mn ≤ mx) :
    (mn ≤ v ∧ v ≤ mx → normalize_sensor_value v (mn, mx) = 1) ∧
    (v < mn → normalize_sensor_value v (mn, mx) = max 0 (v / mn) ∧
      0 ≤ normalize_sensor_value v (mn, mx) ∧ normalize_sensor_value v (mn, mx) < 1) ∧
    (mx < v → normalize_sensor_value v (mn, mx) = max 0 (mx / v) ∧
      0 ≤ normalize_sensor_value v (mn, mx) ∧ normalize_sensor_value v (mn, mx) < 1) ∧
    (∀ w, v ≤ w → w < mn →
      normalize_sensor_value v (mn, mx) ≤ normalize_sensor_value w (mn, mx)) ∧
    (∀ w, mx < v → v ≤ w →
      normalize_sensor_value w (mn, mx) ≤ normalize_sensor_value v (mn, mx)) := by
  have key : ∀ u : ℚ, u < mn → normalize_sensor_value u (mn, mx) = max 0 (u / mn) := by
    intro u hu
    unfold normalize_sensor_value
    rw [if_neg (by rintro ⟨h1, _⟩; linarith), if_pos hu]
  have keyHi : ∀ u : ℚ, mx < u → normalize_sensor_value u (mn, mx) = max 0 (mx / u) := by
    intro u hu
    unfold normalize_sensor_value
    rw [if_neg (by rintro ⟨_, h2⟩; linarith), if_neg (by intro h; linarith)]
  refine ⟨?_, ?_, ?_, ?_, ?_⟩
  · intro ⟨h1, h2⟩
    unfold normalize_sensor_value
    rw [if_pos ⟨h1, h2⟩]
  · intro hv
    refine ⟨key v hv, ?_, ?_⟩
    · rw [key v hv]; exact le_max_left _ _
    · rw [key v hv]
      exact max_lt (by norm_num) ((div_lt_one hmn).mpr hv)
  · intro hv
    have hvpos : 0 < v := lt_of_le_of_lt (le_of_lt hmn) (lt_of_le_of_lt hle hv)
    refine ⟨keyHi v hv, ?_, ?_⟩
    · rw [keyHi v hv]; exact le_max_left _ _
    · rw [keyHi v hv]
      exact max_lt (by norm_num) ((div_lt_one hvpos).mpr hv)
  · intro w hvw hw
    rw [key v (lt_of_le_of_lt hvw hw), key w hw]
    exact max_le_max le_rfl (by gcongr)
  · intro w hv hvw
    have hvpos : 0 < v := lt_of_le_of_lt (le_of_lt hmn) (lt_of_le_of_lt hle hv)
    rw [keyHi v hv, keyHi w (lt_of_lt_of_le hv hvw)]
    refine max_le_max le_rfl ?_
    exact div_le_div_of_nonneg_left (le_trans (le_of_lt hmn) hle) hvpos hvw

/-- Witness for C5 (amended): soil-moisture optimal range (20, 40), value
10 below the range yields max 0 (10/20) = 1/2, inside [0, 1). -/
theorem normalize_sensor_value_spec_witness :
    normalize_sensor_value 10 (20, 40) = max 0 ((10 : ℚ) / 20) ∧
    0 ≤ normalize_sensor_value 10 (20, 40) ∧ normalize_sensor_value 10 (20, 40) < 1 :=
  (normalize_sensor_value_spec 20 40 10 (by norm_num) (by norm_num)).2.1 (by norm_num)

/-- Claim C6, counterexample: for moisture 120 with optimal range (20, 40)
and water need 1, the moisture exceeds the maximum and
`calculate_water_factor` returns 2/5, a penalty of 60% - the penalty is
not capped at 30% (a 30% cap would force a factor of at least 7/10). -/
theorem calculate_water_factor_cex :
    (40 : ℚ) < 120 ∧
    calculate_water_factor 120 (20, 40) 1 = 2/5 ∧
    calculate_water_factor 120 (20, 40) 1 < 7/10 := by
  refine ⟨by norm_num, ?_, ?_⟩ <;> norm_num [calculate_water_factor]

/-- Claim C6, amended: `calculate_water_factor` returns 1 when moisture is
within the optimal range; below the minimum it returns the shortfall ratio
moisture/min scaled by the crop water-need coefficient; above the maximum
it applies a penalty of 0.3 per unit of relative excess over the maximum
(proportional, not capped at 30%); in all cases the result is floored
at 0.1. -/
theorem calculate_water_factor_spec (mn mx m need : ℚ) (hle : mn ≤ mx) :
    (mn ≤ m ∧ m ≤ mx → calculate_water_factor m (mn, mx) need = 1) ∧
    (m < mn → calculate_water_factor m (mn, mx) need = max (1/10) ((m / mn) * need)) ∧
    (mx < m → calculate_water_factor m (mn, mx) need
      = max (1/10) (1 - ((m - mx) / mx) * (3/10))) ∧
    1/10 ≤ calculate_water_factor m (mn, mx) need := by
  refine ⟨?_, ?_, ?_, le_max_left _ _⟩
  · intro ⟨h1, h2⟩
    unfold calculate_water_factor
    rw [if_neg (by intro h; linarith), if_neg (by intro h; linarith)]
    norm_num
  · intro hm
    unfold calculate_water_factor
    rw [if_pos hm]
  · intro hm
    unfold calculate_water_factor
    rw [if_neg (by intro h; simp only at h; linarith), if_pos hm]

/-- Witness for C6 (amended): moisture 10 below the range (20, 40) with
water need 1.1 gives max (1/10) ((10/20) * (11/10)). -/
theorem calculate_water_factor_spec_witness :
    calculate_water_factor 10 (20, 40) (11/10) = max (1/10) ((10/20 : ℚ) * (11/10)) :=
  (calculate_water_factor_spec 20 40 10 (11/10) (by norm_num)).2.1 (by norm_num)

/-! ## IoT sensor simulator (`sensor_simulator.py`) -/

/-- One entry of `IoTSensorSimulator.sensors_config`. -/
structure SimSensorConfig where
  name : String
  unit : String
  rangeMin : ℚ
  rangeMax : ℚ
  optMin : ℚ
  optMax : ℚ
  driftRate : ℚ
deriving DecidableEq, Repr

/-- The six configured simulator sensors. -/
def sensors_config : List (String × SimSensorConfig) :=
  [("soil_moisture", ⟨"Soil Moisture Sensor", "%", 0, 100, 40, 70, 1/10⟩),
   ("soil_temperature", ⟨"Soil Temperature Sensor", "°C", 5, 40, 18, 25, 5/100⟩),
   ("air_humidity", ⟨"Air Humidity Sensor", "%", 20, 100, 50, 80, 8/100⟩),
   ("soil_ph", ⟨"Soil pH Sensor", "pH", 4, 9, 6, 15/2, 2/100⟩),
   ("light_intensity", ⟨"Light Intensity Sensor", "lux", 0, 100000, 10000, 50000, 15/100⟩),
   ("nitrogen_level", ⟨"Nitrogen Level Sensor", "ppm", 0, 100, 20, 50, 3/100⟩)]

/-- Per-sensor mutable state of the simulator. -/
structure SimSensorState where
  currentValue : ℚ
  lastReading : ℕ
  driftDirection : ℤ
  noiseLevel : ℚ
deriving DecidableEq, Repr

/-- The four weather conditions drawn by `random.choice`. -/
inductive Weather
  | sunny
  | cloudy
  | rainy
  | windy
deriving DecidableEq, Repr

/-- Time-of-day factors of `simulate_environmental_factors`. -/
structure TimeFactors where
  temperatureFactor : ℚ
  lightFactor : ℚ
  humidityFactor : ℚ
deriving DecidableEq, Repr

/-- Weather factors of `simulate_environmental_factors`. -/
structure WeatherFactors where
  temp : ℚ
  humidity : ℚ
  light : ℚ
deriving DecidableEq, Repr

/-- Environmental factors returned by `simulate_environmental_factors`,
as a function of the current hour and the drawn weather condition. -/
structure EnvFactors where
  timeFactors : TimeFactors
  weather : Weather
  weatherFactors : WeatherFactors
deriving DecidableEq, Repr

/-- `IoTSensorSimulator.simulate_environmental_factors`. -/
def simulate_environmental_factors (hour : ℕ) (w : Weather) : EnvFactors :=
  { timeFactors :=
      { temperatureFactor := 1 + (3/10) * |12 - (hour : ℚ)| / 12,
        lightFactor := max (1/10) (1 - |12 - (hour : ℚ)| / 12),
        humidityFactor := 1 + (2/10) * (|12 - (hour : ℚ)| / 12) },
    weather := w,
    weatherFactors :=
      match w with
      | Weather.sunny => ⟨12/10, 8/10, 13/10⟩
      | Weather.cloudy => ⟨9/10, 11/10, 6/10⟩
      | Weather.rainy => ⟨8/10, 14/10, 4/10⟩
      | Weather.windy => ⟨9/10, 9/10, 1⟩ }

/-- The sensor-type-specific environmental modifiers of `read_sensor`. -/
def applyEnvFactors (sensor_id : String) (v : ℚ) (env : EnvFactors) : ℚ :=
  if sensor_id = "soil_temperature" then
    v * env.timeFactors.temperatureFactor * env.weatherFactors.temp
  else if sensor_id = "air_humidity" then
    v * env.timeFactors.humidityFactor * env.weatherFactors.humidity
  else if sensor_id = "light_intensity" then
    v * env.timeFactors.lightFactor * env.weatherFactors.light
  else if sensor_id = "soil_moisture" ∧ env.weather = Weather.rainy then
    v * (13/10)
  else v

/-- `IoTSensorSimulator.read_sensor` for a known sensor id: `driftSample`
models `random.uniform(-drift_rate, drift_rate)`, `noiseSample` models
`random.uniform(-noise_level, noise_level)`, `flipDraw` models
`random.random() < 0.1`, and `now` the reading timestamp. Returns the
rounded reading together with the updated sensor state. -/
def read_sensor (sensor_id : String) (config : SimSensorConfig) (state : SimSensorState)
    (hour : ℕ) (w : Weather) (driftSample noiseSample : ℚ) (flipDraw : Bool) (now : ℕ) :
    ℚ × SimSensorState :=
  let env := simulate_environmental_factors hour w
  let withEnv := applyEnvFactors sensor_id state.currentValue env
  let withDrift := withEnv + driftSample * (state.driftDirection : ℚ)
  let withNoise := withDrift + noiseSample * withDrift
  let clamped := max config.rangeMin (min config.rangeMax withNoise)
  (round2 clamped,
   { state with
      currentValue := clamped,
      lastReading := now,
      driftDirection := if flipDraw then -state.driftDirection else state.driftDirection })

theorem round2_clamp_mem (a b v : ℚ) (hab : a ≤ b) (ha : round2 a = a) (hb : round2 b = b) :
    a ≤ round2 (max a (min b v)) ∧ round2 (max a (min b v)) ≤ b := by
  constructor
  · have h := round2_mono (le_max_left a (min b v))
    rw [ha] at h
    exact h
  · have hcl : max a (min b v) ≤ b := max_le hab (min_le_left _ _)
    have h := round2_mono hcl
    rw [hb] at h
    exact h

theorem round2_natCast (n : ℕ) : round2 (n : ℚ) = (n : ℚ) := by
  have h := round2_intCast (n : ℤ)
  push_cast at h
  exact h

/-- Claim C1: for every configured sensor and every sensor state, hour,
weather draw, drift sample, noise sample and drift-flip draw, the value
returned by `read_sensor` lies within the sensor's configured hard
physical range. -/
theorem read_sensor_within_hard_range (sid : String) (cfg : SimSensorConfig)
    (hmem : (sid, cfg) ∈ sensors_config) (state : SimSensorState) (hour : ℕ) (w : Weather)
    (driftSample noiseSample : ℚ) (flipDraw : Bool) (now : ℕ) :
    cfg.rangeMin ≤ (read_sensor sid cfg state hour w driftSample noiseSample flipDraw now).1 ∧
    (read_sensor sid cfg state hour w driftSample noiseSample flipDraw now).1 ≤ cfg.rangeMax := by
  have hfst : (read_sensor sid cfg state hour w driftSample noiseSample flipDraw now).1
      = round2 (max cfg.rangeMin (min cfg.rangeMax
          ((applyEnvFactors sid state.currentValue (simulate_environmental_factors hour w)
              + driftSample * (state.driftDirection : ℚ))
            + noiseSample * (applyEnvFactors sid state.currentValue
                (simulate_environmental_factors hour w)
              + driftSample * (state.driftDirection : ℚ))))) := rfl
  rw [hfst]
  fin_cases hmem <;>
    · apply round2_clamp_mem <;>
      · first
        | (rw [round2_eq_floor]; norm_num)
        | norm_num

/-- Witness for C1: the soil-moisture sensor at a state far outside the
range still reads within [0, 100]. -/
theorem read_sensor_within_hard_range_witness :
    (0 : ℚ) ≤ (read_sensor "soil_moisture" ⟨"Soil Moisture Sensor", "%", 0, 100, 40, 70, 1/10⟩
        ⟨1234, 0, 1, 3/100⟩ 3 Weather.rainy (7/100) (2/100) true 17).1 ∧
    (read_sensor "soil_moisture" ⟨"Soil Moisture Sensor", "%", 0, 100, 40, 70, 1/10⟩
        ⟨1234, 0, 1, 3/100⟩ 3 Weather.rainy (7/100) (2/100) true 17).1 ≤ 100 :=
  read_sensor_within_hard_range "soil_moisture" _ (by simp [sensors_config])
    ⟨1234, 0, 1, 3/100⟩ 3 Weather.rainy (7/100) (2/100) true 17

/-! ## Yield predictor (`ai_models.py`): state, training, prediction -/

/-- Input row assembled by the trained branch of `predict_yield`
(`input_data`: seven numeric features plus two categoricals). -/
structure PredInput where
  soilMoisture : ℚ
  soilPH : ℚ
  temperatureC : ℚ
  rainfallMm : ℚ
  humidity : ℚ
  sunlightHours : ℚ
  ndviIndex : ℚ
  cropType : String
  cropDiseaseStatus : String

/-- Mutable state of `CropYieldPredictor`. The fitted sklearn pipeline is
abstracted as the function `model : PredInput → ℚ` (the composition of the
preprocessor and regressor on a one-row frame); its internals are external
library code and only its input-output behaviour matters here. -/
structure PredictorState where
  model_weights : List (String × ℚ)
  is_trained : Bool
  model_accuracy : ℚ
  training_data : List (List (String × ℚ))
  model : PredInput → ℚ

/-- The predictor's `__init__` state. The unfitted pipeline is modelled as
the constant-zero function; it is never consulted while `is_trained` is
false (in the source, calling `predict` on the unfitted pipeline would
raise). -/
def initCropYieldPredictor : PredictorState :=
  { model_weights :=
      [("soil_moisture", 35/100), ("soil_pH", 20/100), ("temperature", 25/100),
       ("rainfall", 10/100), ("humidity", 5/100), ("sunlight_hours", 3/100),
       ("NDVI_index", 2/100)],
    is_trained := false,
    model_accuracy := 85/100,
    training_data := [],
    model := fun _ => 0 }

/-- Crop coefficient triple (`base_yield`, `temp_sensitivity`, `water_need`). -/
structure CropCoeff where
  base_yield : ℚ
  temp_sensitivity : ℚ
  water_need : ℚ
deriving DecidableEq, Repr

/-- `self.crop_coefficients.get(crop_type, default)` with the default used
in `predict_yield`. -/
def crop_coefficients_get (crop_type : String) : CropCoeff :=
  if crop_type = "Wheat" then ⟨4000, 1, 11/10⟩
  else if crop_type = "Soybean" then ⟨4500, 12/10, 1⟩
  else if crop_type = "Maize" then ⟨5000, 13/10, 12/10⟩
  else if crop_type = "Cotton" then ⟨3500, 11/10, 13/10⟩
  else if crop_type = "Rice" then ⟨4500, 12/10, 14/10⟩
  else ⟨4000, 1, 1⟩

/-- `self.numerical_features`. -/
def numerical_features : List String :=
  ["soil_moisture_%", "soil_pH", "temperature_C", "rainfall_mm",
   "humidity_%", "sunlight_hours", "NDVI_index"]

/-- `self.categorical_features`. -/
def categorical_features : List String := ["crop_type", "crop_disease_status"]

/-- The training target column. -/
def target_column : String := "yield_kg_per_hectare"

/-- External result of `pd.read_csv` plus the sklearn fit on the parsed
frame: the columns present, the surviving records, the fitted pipeline,
its in-sample score, and the post-fit feature names and importances.
`none` models `read_csv` raising (unreadable file). -/
structure TrainDataset where
  columns : List String
  records : List (List (String × ℚ))
  fitModel : PredInput → ℚ
  score : ℚ
  featureNames : List String
  importances : List ℚ

/-- The weight-update loop after a successful fit: for every
(feature, importance) pair, every weight key occurring as a substring of
the feature name is overwritten with that importance. -/
def updateWeights (ws : List (String × ℚ)) (feats : List (String × ℚ)) : List (String × ℚ) :=
  feats.foldl
    (fun acc fi => acc.map (fun kw => if pyContains fi.1 kw.1 then (kw.1, fi.2) else kw)) ws

/-- `CropYieldPredictor.train_model`: `read_csv` failure (input `none`) and
a missing required column (`KeyError` in `dropna`) are caught by the
enclosing `try`, leaving the state untouched; otherwise the pipeline is
fitted and the state updated. -/
def train_model (st : PredictorState) : Option TrainDataset → PredictorState
  | none => st
  | some ds =>
    if (numerical_features ++ categorical_features ++ [target_column]).all
        (fun c => c ∈ ds.columns) then
      { model_weights := updateWeights st.model_weights (ds.featureNames.zip ds.importances),
        is_trained := true,
        model_accuracy := ds.score,
        training_data := ds.records,
        model := ds.fitModel }
    else st

/-- Python dict comprehension `{sensor.id: sensor for sensor in sensors}`:
on duplicate ids the last entry wins. -/
def sensorDictGet (sensors : List SensorData) (sid : String) : Option SensorData :=
  sensors.reverse.find? (fun s => s.id = sid)

/-- `sensor_dict.get(key, default)` on the value of a sensor. -/
def sensorValueGetD (sensors : List SensorData) (sid : String) (dflt : ℚ) : ℚ :=
  match sensorDictGet sensors sid with
  | some s => s.value
  | none => dflt

/-- Environmental score of the heuristic branch: weighted sum of the
normalized readings of the sensors present in the weight table. -/
def environmentalScoreBase (ws : List (String × ℚ)) (sensors : List SensorData) : ℚ :=
  ws.foldl
    (fun acc kw =>
      match sensorDictGet sensors kw.1 with
      | some s => acc + normalize_sensor_value s.value (s.optMin, s.optMax) * kw.2
      | none => acc) 0

/-- Environmental score after the temperature and soil-moisture factors. -/
def environmentalScore (st : PredictorState) (crop : CropData)
    (sensors : List SensorData) : ℚ :=
  let coeff := crop_coefficients_get crop.cropType
  let e1 := environmentalScoreBase st.model_weights sensors
  let e2 :=
    match sensorDictGet sensors "temperature" with
    | some t => e1 * calculate_temperature_factor t.value (t.optMin, t.optMax)
        coeff.temp_sensitivity
    | none => e1
  match sensorDictGet sensors "soil_moisture" with
  | some m => e2 * calculate_water_factor m.value (m.optMin, m.optMax) coeff.water_need
  | none => e2

/-- The heuristic branch's `predicted_yield` before the random variation is
applied: base yield times environmental score times health factor times
growth-stage factor. -/
def heuristicPre (st : PredictorState) (crop : CropData) (sensors : List SensorData) : ℚ :=
  (crop_coefficients_get crop.cropType).base_yield * environmentalScore st crop sensors *
    (crop.healthScore / 100) * get_growth_stage_factor crop.growthStage

/-- `CropYieldPredictor.predict_yield`. The argument `jitter` is the
heuristic branch's `random.uniform(0.9, 1.1)` draw; the trained branch
never consumes it. -/
def predict_yield (st : PredictorState) (crop : CropData) (sensors : List SensorData)
    (jitter : ℚ) : ℚ :=
  if st.is_trained then
    let input : PredInput :=
      { soilMoisture := sensorValueGetD sensors "soil_moisture" 30,
        soilPH := sensorValueGetD sensors "soil_pH" (13/2),
        temperatureC := sensorValueGetD sensors "temperature" 25,
        rainfallMm := sensorValueGetD sensors "rainfall" 150,
        humidity := sensorValueGetD sensors "humidity" 60,
        sunlightHours := sensorValueGetD sensors "sunlight_hours" 6,
        ndviIndex := sensorValueGetD sensors "NDVI_index" (1/2),
        cropType := crop.cropType,
        cropDiseaseStatus := crop.healthStatus }
    let coeff := crop_coefficients_get crop.cropType
    round2 (max 0 (st.model input *
      (crop.healthScore / 100 * get_growth_stage_factor crop.growthStage *
        coeff.base_yield / 4000)))
  else
    round2 (max 0 (heuristicPre st crop sensors * jitter))

theorem normalize_sensor_value_nonneg (v : ℚ) (r : ℚ × ℚ) :
    0 ≤ normalize_sensor_value v r := by
  unfold normalize_sensor_value
  simp only []
  split_ifs <;> norm_num

theorem environmentalScoreBase_nonneg (ws : List (String × ℚ)) (sensors : List SensorData)
    (hw : ∀ kw ∈ ws, 0 ≤ kw.2) : 0 ≤ environmentalScoreBase ws sensors := by
  unfold environmentalScoreBase
  suffices h : ∀ (l : List (String × ℚ)) (acc : ℚ), (∀ kw ∈ l, 0 ≤ kw.2) → 0 ≤ acc →
      0 ≤ l.foldl
        (fun acc kw =>
          match sensorDictGet sensors kw.1 with
          | some s => acc + normalize_sensor_value s.value (s.optMin, s.optMax) * kw.2
          | none => acc) acc by
    exact h ws 0 hw le_rfl
  intro l
  induction l with
  | nil => intro acc _ hacc; exact hacc
  | cons kw t ih =>
    intro acc hl hacc
    simp only [List.foldl_cons]
    apply ih
    · intro x hx
      exact hl x (List.mem_cons_of_mem kw hx)
    · cases hfind : sensorDictGet sensors kw.1 with
      | none => simpa [hfind] using hacc
      | some s =>
        simp only [hfind]
        have h1 := normalize_sensor_value_nonneg s.value (s.optMin, s.optMax)
        have h2 := hl kw (List.mem_cons_self kw t)
        positivity

theorem calculate_temperature_factor_pos (t : ℚ) (r : ℚ × ℚ) (sens : ℚ) :
    0 < calculate_temperature_factor t r sens :=
  lt_of_lt_of_le (by norm_num) (le_max_left _ _)

theorem calculate_water_factor_pos (m : ℚ) (r : ℚ × ℚ) (need : ℚ) :
    0 < calculate_water_factor m r need :=
  lt_of_lt_of_le (by norm_num) (le_max_left _ _)

theorem environmentalScore_nonneg (st : PredictorState) (crop : CropData)
    (sensors : List SensorData) (hw : ∀ kw ∈ st.model_weights, 0 ≤ kw.2) :
    0 ≤ environmentalScore st crop sensors := by
  unfold environmentalScore
  have h1 := environmentalScoreBase_nonneg st.model_weights sensors hw
  rcases ht : sensorDictGet sensors "temperature" with _ | t <;>
    rcases hm : sensorDictGet sensors "soil_moisture" with _ | m <;>
      simp only [ht, hm]
  · exact h1
  · have h2 := calculate_water_factor_pos m.value (m.optMin, m.optMax)
      (crop_coefficients_get crop.cropType).water_need
    positivity
  · have h2 := calculate_temperature_factor_pos t.value (t.optMin, t.optMax)
      (crop_coefficients_get crop.cropType).temp_sensitivity
    positivity
  · have h2 := calculate_temperature_factor_pos t.value (t.optMin, t.optMax)
      (crop_coefficients_get crop.cropType).temp_sensitivity
    have h3 := calculate_water_factor_pos m.value (m.optMin, m.optMax)
      (crop_coefficients_get crop.cropType).water_need
    positivity

theorem crop_base_yield_pos (c : String) : 0 < (crop_coefficients_get c).base_yield := by
  unfold crop_coefficients_get
  split_ifs <;> norm_num

theorem get_growth_stage_factor_pos (g : String) : 0 < get_growth_stage_factor g := by
  unfold get_growth_stage_factor
  split_ifs <;> norm_num

theorem heuristicPre_nonneg (st : PredictorState) (crop : CropData)
    (sensors : List SensorData) (hw : ∀ kw ∈ st.model_weights, 0 ≤ kw.2)
    (hh : 0 ≤ crop.healthScore) : 0 ≤ heuristicPre st crop sensors := by
  unfold heuristicPre
  have h1 := crop_base_yield_pos crop.cropType
  have h2 := environmentalScore_nonneg st crop sensors hw
  have h3 := get_growth_stage_factor_pos crop.growthStage
  positivity

/-- Claim C7: training on an unreadable file (the `read_csv` result is
`none`) or on a dataset missing a required feature or target column leaves
the predictor completely unchanged - in particular `is_trained` stays
false - and heuristic-mode prediction still returns a non-negative yield
for every crop and sensor combination. -/
theorem train_model_failure_graceful :
    (∀ st : PredictorState, train_model st none = st) ∧
    (∀ (st : PredictorState) (ds : TrainDataset),
      (∃ c ∈ numerical_features ++ categorical_features ++ [target_column],
        c ∉ ds.columns) →
      train_model st (some ds) = st) ∧
    (∀ (st : PredictorState) (crop : CropData) (sensors : List SensorData) (jitter : ℚ),
      st.is_trained = false → 0 ≤ predict_yield st crop sensors jitter) := by
  refine ⟨fun st => rfl, ?_, ?_⟩
  · intro st ds ⟨c, hc, hnc⟩
    simp only [train_model]
    rw [if_neg]
    intro hall
    rw [List.all_eq_true] at hall
    exact hnc (by simpa using hall c hc)
  · intro st crop sensors jitter huntrained
    simp only [predict_yield, huntrained, Bool.false_eq_true, if_false]
    exact round2_nonneg _ (le_max_left _ _)

/-- A dataset whose only column is a feature column: the target column
`yield_kg_per_hectare` is missing, so `dropna` raises `KeyError`. -/
def missingTargetDataset : TrainDataset :=
  { columns := ["soil_moisture_%"], records := [], fitModel := fun _ => 0,
    score := 0, featureNames := [], importances := [] }

/-- Crop used in concrete predictor scenarios. -/
def cexCrop : CropData :=
  { cropType := "TestCrop", plantedDate := 0, expectedHarvest := 0,
    predictedYield := 0, healthScore := 449/37800, growthStage := "Seedling",
    healthStatus := "None" }

/-- Single soil-moisture sensor used in concrete predictor scenarios. -/
def cexSensor : SensorData :=
  { id := "soil_moisture", name := "Soil Moisture", value := 40, unit := "%",
    optMin := 20, optMax := 50, lastUpdated := 0, status := "optimal" }

/-- Witness for C7: training the fresh predictor on a dataset missing the
target column leaves it untouched, and the heuristic prediction for the
sample crop is non-negative. -/
theorem train_model_failure_graceful_witness :
    train_model initCropYieldPredictor (some missingTargetDataset) = initCropYieldPredictor ∧
    0 ≤ predict_yield initCropYieldPredictor cexCrop [cexSensor] 1 :=
  ⟨train_model_failure_graceful.2.1 initCropYieldPredictor missingTargetDataset
      ⟨"yield_kg_per_hectare", by decide, by decide⟩,
   train_model_failure_graceful.2.2 initCropYieldPredictor cexCrop [cexSensor] 1 rfl⟩

/-- Claim C8: trained-mode prediction does not consume the jitter draw, so
two runs on the same trained model, crop and sensor values coincide; and
heuristic-mode prediction equals the deterministic pre-jitter value D
scaled by the jitter draw and rounded to 2 decimals, hence lies in the
band [0.9*D - 1/200, 1.1*D + 1/200] (for non-negative weights and health
score). The unrounded claim band [0.9*D, 1.1*D] fails, see the
counterexample. -/
theorem predict_yield_modes :
    (∀ (st : PredictorState) (crop : CropData) (sensors : List SensorData) (j₁ j₂ : ℚ),
      st.is_trained = true →
      predict_yield st crop sensors j₁ = predict_yield st crop sensors j₂) ∧
    (∀ (st : PredictorState) (crop : CropData) (sensors : List SensorData) (jitter : ℚ),
      st.is_trained = false →
      (∀ kw ∈ st.model_weights, 0 ≤ kw.2) →
      0 ≤ crop.healthScore →
      9/10 ≤ jitter → jitter ≤ 11/10 →
      predict_yield st crop sensors jitter
          = round2 (heuristicPre st crop sensors * jitter) ∧
      9/10 * heuristicPre st crop sensors - 1/200 ≤ predict_yield st crop sensors jitter ∧
      predict_yield st crop sensors jitter ≤ 11/10 * heuristicPre st crop sensors + 1/200) := by
  constructor
  · intro st crop sensors j1 j2 htrained
    simp only [predict_yield, htrained, if_true]
  · intro st crop sensors jitter huntrained hw hh hj1 hj2
    have hD : 0 ≤ heuristicPre st crop sensors := heuristicPre_nonneg st crop sensors hw hh
    have hDj : 0 ≤ heuristicPre st crop sensors * jitter := by nlinarith
    have heq : predict_yield st crop sensors jitter
        = round2 (heuristicPre st crop sensors * jitter) := by
      simp only [predict_yield, huntrained, Bool.false_eq_true, if_false,
        max_eq_right hDj]
    refine ⟨heq, ?_, ?_⟩
    · rw [heq]
      have h1 := le_round2_add (heuristicPre st crop sensors * jitter)
      nlinarith
    · rw [heq]
      have h1 := round2_sub_le (heuristicPre st crop sensors * jitter)
      nlinarith

/-- A trained predictor state used in the C8 witness: the fitted pipeline
is a constant model. -/
def cexTrained : PredictorState :=
  { initCropYieldPredictor with is_trained := true, model := fun _ => 100 }

/-- Witness for C8: on a trained state two different jitter draws give the
same prediction, and on the fresh (untrained) state the prediction at
jitter 1 lies in the widened band around the pre-jitter value. -/
theorem predict_yield_modes_witness :
    predict_yield cexTrained cexCrop [cexSensor] (9/10)
      = predict_yield cexTrained cexCrop [cexSensor] (11/10) ∧
    (9/10 * heuristicPre initCropYieldPredictor cexCrop [cexSensor] - 1/200 ≤
        predict_yield initCropYieldPredictor cexCrop [cexSensor] 1 ∧
      predict_yield initCropYieldPredictor cexCrop [cexSensor] 1 ≤
        11/10 * heuristicPre initCropYieldPredictor cexCrop [cexSensor] + 1/200) :=
  ⟨predict_yield_modes.1 cexTrained cexCrop [cexSensor] (9/10) (11/10) rfl,
   ((predict_yield_modes.2 initCropYieldPredictor cexCrop [cexSensor] 1 rfl
      (by intro kw hkw; fin_cases hkw <;> norm_num [initCropYieldPredictor])
      (by norm_num [cexCrop]) (by norm_num) (by norm_num)).2)⟩

/-- Claim C8, counterexample to the unrounded band: with the fresh
predictor, a crop with health score 449/37800 in the Seedling stage and a
single in-range soil-moisture sensor, the pre-jitter value is D = 449/9000,
and at jitter 0.9 the returned prediction 0.04 falls strictly below
0.9 * D = 0.0449 - the rounding to 2 decimals leaves the claimed band
[0.9*D, 1.1*D]. -/
theorem predict_yield_jitter_band_cex :
    heuristicPre initCropYieldPredictor cexCrop [cexSensor] = 449/9000 ∧
    predict_yield initCropYieldPredictor cexCrop [cexSensor] (9/10) = 1/25 ∧
    predict_yield initCropYieldPredictor cexCrop [cexSensor] (9/10)
      < 9/10 * heuristicPre initCropYieldPredictor cexCrop [cexSensor] := by
  have hd1 : sensorDictGet [cexSensor] "soil_moisture" = some cexSensor := by
    simp [sensorDictGet, cexSensor]
  have hd2 : sensorDictGet [cexSensor] "soil_pH" = none := by
    simp [sensorDictGet, cexSensor]
  have hd3 : sensorDictGet [cexSensor] "temperature" = none := by
    simp [sensorDictGet, cexSensor]
  have hd4 : sensorDictGet [cexSensor] "rainfall" = none := by
    simp [sensorDictGet, cexSensor]
  have hd5 : sensorDictGet [cexSensor] "humidity" = none := by
    simp [sensorDictGet, cexSensor]
  have hd6 : sensorDictGet [cexSensor] "sunlight_hours" = none := by
    simp [sensorDictGet, cexSensor]
  have hd7 : sensorDictGet [cexSensor] "NDVI_index" = none := by
    simp [sensorDictGet, cexSensor]
  have henv1 : environmentalScoreBase initCropYieldPredictor.model_weights [cexSensor]
      = 7/20 := by
    simp only [environmentalScoreBase, initCropYieldPredictor, List.foldl_cons,
      List.foldl_nil, hd1, hd2, hd3, hd4, hd5, hd6, hd7]
    norm_num [normalize_sensor_value, cexSensor]
  have henv : environmentalScore initCropYieldPredictor cexCrop [cexSensor] = 7/20 := by
    simp only [environmentalScore, hd1, hd3, henv1]
    norm_num [calculate_water_factor, crop_coefficients_get, cexSensor, cexCrop]
  have hcoeff : crop_coefficients_get "TestCrop" = ⟨4000, 1, 1⟩ := by
    unfold crop_coefficients_get
    rw [if_neg (by decide), if_neg (by decide), if_neg (by decide), if_neg (by decide),
      if_neg (by decide)]
  have hstage : get_growth_stage_factor "Seedling" = 3/10 := by
    unfold get_growth_stage_factor
    rw [if_pos rfl]
  have hpre : heuristicPre initCropYieldPredictor cexCrop [cexSensor] = 449/9000 := by
    simp only [heuristicPre]
    rw [henv, show cexCrop.cropType = "TestCrop" from rfl,
      show cexCrop.healthScore = 449/37800 from rfl,
      show cexCrop.growthStage = "Seedling" from rfl, hcoeff, hstage]
    norm_num
  have hpred : predict_yield initCropYieldPredictor cexCrop [cexSensor] (9/10) = 1/25 := by
    have h1 : predict_yield initCropYieldPredictor cexCrop [cexSensor] (9/10)
        = round2 (max 0 (heuristicPre initCropYieldPredictor cexCrop [cexSensor] * (9/10))) :=
      rfl
    rw [h1, hpre, max_eq_right (by norm_num : (0:ℚ) ≤ 449/9000 * (9/10)),
      round2_eq_floor]
    norm_num
  exact ⟨hpre, hpred, by rw [hpred, hpre]; norm_num⟩

/-! ## Alert resolution (`smart_agriculture_system.py`, `resolve_alert`) -/

/-- `SmartAgricultureSystem.resolve_alert`: scan the alert list in order,
mark the first alert with the given id resolved and return `true`;
return `false` leaving the list unchanged when no id matches. -/
def resolve_alert : List SystemAlert → String → Bool × List SystemAlert
  | [], _ => (false, [])
  | a :: rest, aid =>
    if a.id = aid then (true, { a with resolved := true } :: rest)
    else
      let r := resolve_alert rest aid
      (r.1, a :: r.2)

theorem resolve_alert_no_match (alerts : List SystemAlert) (aid : String)
    (h : ∀ a ∈ alerts, a.id ≠ aid) : resolve_alert alerts aid = (false, alerts) := by
  induction alerts with
  | nil => rfl
  | cons a rest ih =>
    simp only [resolve_alert]
    rw [if_neg (h a (List.mem_cons_self a rest))]
    rw [ih (fun b hb => h b (List.mem_cons_of_mem a hb))]

theorem resolve_alert_first_match (pre : List SystemAlert) (a : SystemAlert)
    (post : List SystemAlert) (aid : String) (hpre : ∀ b ∈ pre, b.id ≠ aid)
    (ha : a.id = aid) :
    resolve_alert (pre ++ a :: post) aid
      = (true, pre ++ { a with resolved := true } :: post) := by
  induction pre with
  | nil =>
    simp only [List.nil_append, resolve_alert]
    rw [if_pos ha]
  | cons b rest ih =>
    simp only [List.cons_append, resolve_alert]
    rw [if_neg (hpre b (List.mem_cons_self b rest))]
    simp [ih (fun c hc => hpre c (List.mem_cons_of_mem b hc))]

theorem resolve_alert_length (alerts : List SystemAlert) (aid : String) :
    (resolve_alert alerts aid).2.length = alerts.length := by
  induction alerts with
  | nil => rfl
  | cons a rest ih =>
    simp only [resolve_alert]
    split_ifs
    · simp
    · simp [ih]

/-- Claim C10: `resolve_alert` marks exactly the first alert whose id
matches as resolved (leaving its other fields and every other alert
unchanged) and returns true; when no alert has the id it returns false
and leaves the list unchanged; the length of the alert list is always
preserved, so no alert is ever removed. -/
theorem resolve_alert_spec (alerts : List SystemAlert) (aid : String) :
    ((∀ a ∈ alerts, a.id ≠ aid) → resolve_alert alerts aid = (false, alerts)) ∧
    (∀ (pre : List SystemAlert) (a : SystemAlert) (post : List SystemAlert),
      alerts = pre ++ a :: post → (∀ b ∈ pre, b.id ≠ aid) → a.id = aid →
      resolve_alert alerts aid = (true, pre ++ { a with resolved := true } :: post)) ∧
    (resolve_alert alerts aid).2.length = alerts.length := by
  refine ⟨resolve_alert_no_match alerts aid, ?_, resolve_alert_length alerts aid⟩
  intro pre a post heq hpre ha
  rw [heq]
  exact resolve_alert_first_match pre a post aid hpre ha

/-- Witness for C10: resolving the second of two alerts flips only its
resolved flag and returns true; resolving an unknown id changes nothing. -/
theorem resolve_alert_spec_witness :
    resolve_alert
        [⟨"critical_a_1", "error", "m1", 1, false⟩, ⟨"irrigation_2", "info", "m2", 2, false⟩]
        "irrigation_2"
      = (true,
        [⟨"critical_a_1", "error", "m1", 1, false⟩, ⟨"irrigation_2", "info", "m2", 2, true⟩]) ∧
    resolve_alert
        [⟨"critical_a_1", "error", "m1", 1, false⟩, ⟨"irrigation_2", "info", "m2", 2, false⟩]
        "nope"
      = (false,
        [⟨"critical_a_1", "error", "m1", 1, false⟩, ⟨"irrigation_2", "info", "m2", 2, false⟩]) :=
  ⟨(resolve_alert_spec _ "irrigation_2").2.1
      [⟨"critical_a_1", "error", "m1", 1, false⟩] ⟨"irrigation_2", "info", "m2", 2, false⟩ []
      rfl (by decide) rfl,
   (resolve_alert_spec _ "nope").1 (by decide)⟩

/-! ## Agriculture core (`smart_agriculture_system.py`): alerts, irrigation,
update cycle -/

/-- The f-string message of a critical-sensor alert. -/
def criticalMessage (s : SensorData) : String :=
  s.name ++ " is at critical level: " ++ ratRepr s.value ++ s.unit

/-- The id of a critical-sensor alert created at integer time `t`. -/
def criticalAlertId (sid : String) (t : ℕ) : String :=
  "critical_" ++ sid ++ "_" ++ Nat.repr t

/-- The critical-sensor alert appended by `check_for_alerts`. -/
def criticalAlert (t : ℕ) (s : SensorData) : SystemAlert :=
  { id := criticalAlertId s.id t, type := "error", message := criticalMessage s,
    timestamp := t, resolved := false }

/-- The dedup condition of `check_for_alerts`:
`sensor.name in alert.message and alert.type == 'error' and not alert.resolved`. -/
def isUnresolvedErrorFor (name : String) (a : SystemAlert) : Bool :=
  pyContains a.message name && a.type == "error" && !a.resolved

def hasUnresolvedErrorFor (name : String) (alerts : List SystemAlert) : Bool :=
  alerts.any (isUnresolvedErrorFor name)

/-- Number of unresolved error alerts whose message mentions `name`. -/
def errAlertCount (name : String) (alerts : List SystemAlert) : ℕ :=
  (alerts.filter (isUnresolvedErrorFor name)).length

/-- `SmartAgricultureSystem.check_for_alerts`: for each critical sensor,
append an error alert unless an unresolved error alert mentioning the
sensor's name already exists (the list grows while the loop runs, so later
sensors see alerts appended earlier in the same call). -/
def check_for_alerts (t : ℕ) (sensors : List SensorData)
    (alerts : List SystemAlert) : List SystemAlert :=
  sensors.foldl
    (fun acc s =>
      if s.status = "critical" then
        if hasUnresolvedErrorFor s.name acc then acc else acc ++ [criticalAlert t s]
      else acc) alerts

/-- The id of a predictive alert for sensor id `sid` created at time `t`. -/
def predictiveAlertId (sid : String) (t : ℕ) : String :=
  "predictive_" ++ sid ++ "_" ++ Nat.repr t

/-- The message of a predictive alert. -/
def predictiveMessage (s : SensorData) (trend : String) : String :=
  "Predictive: " ++ s.name ++ " showing " ++ trend ++ " trend - may need attention soon"

/-- `SmartAgricultureSystem.create_predictive_alert`: deduplicated on an
unresolved alert whose message starts with `Predictive: <name>`. -/
def create_predictive_alert (t : ℕ) (s : SensorData) (trend : String)
    (alerts : List SystemAlert) : List SystemAlert :=
  if alerts.any (fun a => pyStartsWith a.message ("Predictive: " ++ s.name) && !a.resolved) then
    alerts
  else
    alerts ++ [{ id := predictiveAlertId s.id t, type := "warning",
                 message := predictiveMessage s trend, timestamp := t, resolved := false }]

/-- `SmartAgricultureSystem.analyze_patterns` on the last 10 learning rows:
endpoint comparison per sensor column decides the trend, and a predictive
alert is created for non-stable trends on sensors in warning status. The
source indexes `recent_data[0]` and `reading[i]` directly; in every state
this method is reached from, the buffer is non-empty and all rows have one
entry per sensor, which the total functions `headI`/`getD` mirror. -/
def analyze_patterns (t : ℕ) (sensors : List SensorData) (learning : List (List ℚ))
    (alerts : List SystemAlert) : List SystemAlert :=
  let recent := learning.drop (learning.length - 10)
  sensors.enum.foldl
    (fun acc p =>
      if p.1 < recent.headI.length then
        let values : List ℚ := recent.map (fun r => r.getD p.1 0)
        let trend :=
          if values.length > 1 then
            if values.getLast?.getD 0 > values.headI * (11/10) then "increasing"
            else if values.getLast?.getD 0 < values.headI * (9/10) then "decreasing"
            else "stable"
          else "stable"
        if trend ≠ "stable" ∧ p.2.status = "warning" then
          create_predictive_alert t p.2 trend acc
        else acc
      else acc) alerts

/-- `SmartAgricultureSystem.learn_from_data`: append the reading vector,
evict the oldest entry beyond 100, and run pattern analysis once at least
10 entries are buffered. Returns the new buffer and alert list. -/
def learn_from_data (t : ℕ) (sensors : List SensorData) (reading : List ℚ)
    (learning : List (List ℚ)) (alerts : List SystemAlert) :
    List (List ℚ) × List SystemAlert :=
  let l1 := learning ++ [reading]
  let l2 := if l1.length > 100 then l1.drop 1 else l1
  if 10 ≤ l2.length then (l2, analyze_patterns t sensors l2 alerts) else (l2, alerts)

/-- `SmartAgricultureSystem.generate_sensor_reading`: `randDraw` models
`random.random()` and `timeFactor` models `random.uniform(0.9, 1.1)`. -/
def generate_sensor_reading (s : SensorData) (randDraw timeFactor : ℚ) : ℚ :=
  round2 (((s.optMin + s.optMax) / 2 + (s.optMax - s.optMin) * (3/10) * ((randDraw - 1/2) * 2))
    * timeFactor)

/-- The inline heuristic of `SmartAgricultureSystem.predict_crop_yield`
(the untrained fallback): weights soil_moisture 0.4, soil_ph 0.2,
temperature 0.3, sunlight_hours 0.1, normalized against the optimal range
of the first sensor with the id, scaled by the health score. -/
def predict_crop_yield_fallback (crop : CropData) (sensors : List SensorData) : ℚ :=
  let score : String → Option ℚ := fun sid =>
    match sensors.find? (fun s => s.id = sid) with
    | some sensor =>
      let cv := sensorValueGetD sensors sid sensor.optMin
      some (if sensor.optMin ≤ cv ∧ cv ≤ sensor.optMax then 1
            else max 0 (if cv < sensor.optMin then cv / sensor.optMin else sensor.optMax / cv))
    | none => none
  let weights : List (String × ℚ) :=
    [("soil_moisture", 4/10), ("soil_ph", 2/10), ("temperature", 3/10), ("sunlight_hours", 1/10)]
  let yield_score :=
    (weights.foldl (fun acc kw => acc + (score kw.1).getD (1/2) * kw.2) 0)
      * (crop.healthScore / 100)
  let base :=
    if crop.cropType = "Wheat" then (4000:ℚ)
    else if crop.cropType = "Soybean" then 4500
    else if crop.cropType = "Maize" then 5000
    else 4000
  round2 (base * yield_score)

/-- `SmartAgricultureSystem.predict_crop_yield`: use the trained predictor
when present and trained, otherwise the inline fallback. The trained
branch of `predict_yield` never consumes the jitter draw (see
`predict_yield_modes`), so an arbitrary draw of 1 is passed. -/
def predict_crop_yield (p : Option PredictorState) (crop : CropData)
    (sensors : List SensorData) : ℚ :=
  match p with
  | some pr => if pr.is_trained then predict_yield pr crop sensors 1
               else predict_crop_yield_fallback crop sensors
  | none => predict_crop_yield_fallback crop sensors

/-- The f-string message of an irrigation alert. -/
def irrigationMessage (v : ℚ) : String :=
  "Automatic irrigation activated - Soil moisture: " ++ ratRepr v ++ "%"

/-- The id of an irrigation alert created at time `t`. -/
def irrigationAlertId (t : ℕ) : String := "irrigation_" ++ Nat.repr t

/-- The irrigation alert appended by `auto_irrigate` at time `t`. -/
def irrigationAlert (t : ℕ) (v : ℚ) : SystemAlert :=
  { id := irrigationAlertId t, type := "info", message := irrigationMessage v,
    timestamp := t, resolved := false }

/-- Mutable state of `SmartAgricultureSystem`. `irrigationField1` models
`irrigation_schedule['field_1']`, the only key the source ever writes
(reads use `.get('field_1', False)`, the initial empty dict is `false`). -/
structure AgriState where
  sensors : List SensorData
  crops : List CropData
  alerts : List SystemAlert
  learningData : List (List ℚ)
  irrigationField1 : Bool
  predictor : Option PredictorState

/-- `SmartAgricultureSystem.auto_irrigate`: if the soil-moisture sensor
reads below 30, set the irrigation flag and append an info alert
mentioning the moisture value. There is no deduplication and no rule ever
clears the flag. -/
def auto_irrigate (t : ℕ) (st : AgriState) : AgriState :=
  match st.sensors.find? (fun s => s.id = "soil_moisture") with
  | some s =>
    if s.value < 30 then
      { st with irrigationField1 := true, alerts := st.alerts ++ [irrigationAlert t s.value] }
    else st
  | none => st

/-- Per-cycle random draws: for the sensor at index `i`, `draws i` is the
pair (`random.random()`, `random.uniform(0.9, 1.1)`) of
`generate_sensor_reading`. -/
structure CycleRand where
  draws : ℕ → ℚ × ℚ

/-- `SmartAgricultureSystem.update_system`, one full cycle at integer time
`t`: regenerate readings and statuses, push into the learning buffer and
analyze trends, recompute predicted yields, scan for critical alerts, and
run the irrigation rule. (Dashboard printing and `st.session_state`
history are presentation-only and not modelled.) The inline per-sensor
regeneration loop is `cycleSensors`. -/
def cycleSensors (t : ℕ) (r : CycleRand) (sensors : List SensorData) : List SensorData :=
  sensors.enum.map (fun p =>
    update_sensor_status
      { p.2 with value := generate_sensor_reading p.2 (r.draws p.1).1 (r.draws p.1).2,
                 lastUpdated := t })

def update_system (t : ℕ) (r : CycleRand) (st : AgriState) : AgriState :=
  let sensors1 := cycleSensors t r st.sensors
  let readings := sensors1.map (fun s => s.value)
  let lr := learn_from_data t sensors1 readings st.learningData st.alerts
  let crops1 := st.crops.map (fun c =>
    { c with predictedYield := predict_crop_yield st.predictor c sensors1 })
  let alerts1 := check_for_alerts t sensors1 lr.2
  auto_irrigate t
    { st with sensors := sensors1, crops := crops1, learningData := lr.1, alerts := alerts1 }

/-- The mutating operations of the system: one update cycle (with its
timestamp and random draws) or an alert resolution by id. The snapshot
accessors are read-only and excluded. -/
inductive SysOp
  | update (t : ℕ) (r : CycleRand)
  | resolveA (aid : String)

/-- Step relation of the system: apply one operation. -/
def stepOp : SysOp → AgriState → AgriState
  | SysOp.update t r, st => update_system t r st
  | SysOp.resolveA aid, st => { st with alerts := (resolve_alert st.alerts aid).2 }

theorem pyContains_mid (a n b : String) : pyContains (a ++ n ++ b) n = true := by
  rw [pyContains_iff, String.data_append, String.data_append]
  exact ⟨a.data, b.data, by simp⟩

theorem auto_irrigate_flag_mono (t : ℕ) (st : AgriState)
    (h : st.irrigationField1 = true) : (auto_irrigate t st).irrigationField1 = true := by
  unfold auto_irrigate
  rcases hf : st.sensors.find? (fun s => s.id = "soil_moisture") with _ | s <;>
    simp only [hf]
  · exact h
  · split_ifs
    · rfl
    · exact h

/-- Claim C3: whenever the soil-moisture sensor reads below 30,
`auto_irrigate` sets the irrigation flag and appends exactly one info
alert whose message mentions that moisture value; and the irrigation flag,
once true, is never reset by any system operation (update cycle or alert
resolution): the step relation never turns irrigation off. -/
theorem auto_irrigate_spec :
    (∀ (t : ℕ) (st : AgriState) (s : SensorData),
      st.sensors.find? (fun x => x.id = "soil_moisture") = some s →
      s.value < 30 →
      (auto_irrigate t st).irrigationField1 = true ∧
      (auto_irrigate t st).alerts = st.alerts ++ [irrigationAlert t s.value] ∧
      (irrigationAlert t s.value).type = "info" ∧
      pyContains (irrigationAlert t s.value).message (ratRepr s.value) = true) ∧
    (∀ (op : SysOp) (st : AgriState),
      st.irrigationField1 = true → (stepOp op st).irrigationField1 = true) := by
  constructor
  · intro t st s hfind hv
    unfold auto_irrigate
    simp only [hfind]
    rw [if_pos hv]
    exact ⟨rfl, rfl, rfl, pyContains_mid "Automatic irrigation activated - Soil moisture: "
      (ratRepr s.value) "%"⟩
  · intro op st h
    cases op with
    | update t r =>
      show (update_system t r st).irrigationField1 = true
      unfold update_system
      exact auto_irrigate_flag_mono t _ h
    | resolveA aid => exact h

/-- Soil-moisture sensor forced to 25, the spec's irrigation scenario. -/
def c3Sensor : SensorData :=
  { id := "soil_moisture", name := "Soil Moisture", value := 25, unit := "%",
    optMin := 20, optMax := 40, lastUpdated := 0, status := "optimal" }

/-- System state holding only the forced soil-moisture sensor. -/
def c3State : AgriState :=
  { sensors := [c3Sensor], crops := [], alerts := [], learningData := [],
    irrigationField1 := false, predictor := none }

/-- Witness for C3: at moisture 25 the flag turns on and exactly the one
info alert mentioning 25 is appended; a subsequent resolve operation keeps
the flag on. -/
theorem auto_irrigate_spec_witness :
    ((auto_irrigate 7 c3State).irrigationField1 = true ∧
     (auto_irrigate 7 c3State).alerts = c3State.alerts ++ [irrigationAlert 7 c3Sensor.value] ∧
     (irrigationAlert 7 c3Sensor.value).type = "info" ∧
     pyContains (irrigationAlert 7 c3Sensor.value).message (ratRepr c3Sensor.value) = true) ∧
    (stepOp (SysOp.resolveA "x")
      { c3State with irrigationField1 := true }).irrigationField1 = true :=
  ⟨auto_irrigate_spec.1 7 c3State c3Sensor (by simp [c3State, c3Sensor])
      (by norm_num [c3Sensor]),
   auto_irrigate_spec.2 (SysOp.resolveA "x") { c3State with irrigationField1 := true } rfl⟩

theorem errAlertCount_append_one (n : String) (acc : List SystemAlert) (a : SystemAlert) :
    errAlertCount n (acc ++ [a])
      = errAlertCount n acc + (if isUnresolvedErrorFor n a then 1 else 0) := by
  unfold errAlertCount
  rw [List.filter_append]
  split_ifs with h <;> simp [List.filter, h]

theorem errAlertCount_append_non_error (n : String) (acc mid : List SystemAlert)
    (h : ∀ a ∈ mid, a.type ≠ "error") :
    errAlertCount n (acc ++ mid) = errAlertCount n acc := by
  unfold errAlertCount
  rw [List.filter_append]
  have hmid : mid.filter (isUnresolvedErrorFor n) = [] := by
    rw [List.filter_eq_nil_iff]
    intro a ha
    have htype : a.type ≠ "error" := h a ha
    unfold isUnresolvedErrorFor
    simp [htype]
  simp [hmid]

theorem hasUnresolvedErrorFor_iff_count (n : String) (alerts : List SystemAlert) :
    hasUnresolvedErrorFor n alerts = true ↔ 1 ≤ errAlertCount n alerts := by
  unfold hasUnresolvedErrorFor errAlertCount
  rw [List.any_eq_true]
  constructor
  · rintro ⟨a, ha, hp⟩
    have hm : a ∈ alerts.filter (isUnresolvedErrorFor n) := List.mem_filter.mpr ⟨ha, hp⟩
    exact List.length_pos.mpr (List.ne_nil_of_mem hm)
  · intro hlen
    have hne : alerts.filter (isUnresolvedErrorFor n) ≠ [] :=
      List.length_pos.mp hlen
    obtain ⟨a, ha⟩ := List.exists_mem_of_ne_nil _ hne
    exact ⟨a, (List.mem_filter.mp ha).1, (List.mem_filter.mp ha).2⟩

theorem pyContains_criticalMessage (s : SensorData) :
    pyContains (criticalMessage s) s.name = true := by
  unfold criticalMessage
  have h1 := pyContains_head s.name (" is at critical level: " ++ ratRepr s.value)
  have h2 := pyContains_append_left (s.name ++ (" is at critical level: " ++ ratRepr s.value))
    s.unit s.name h1
  simp only [String.append_assoc] at h2 ⊢
  exact h2

theorem criticalAlert_matches (t : ℕ) (s : SensorData) :
    isUnresolvedErrorFor s.name (criticalAlert t s) = true := by
  unfold isUnresolvedErrorFor criticalAlert
  simp [show (criticalAlert t s).message = criticalMessage s from rfl,
    pyContains_criticalMessage s]

theorem check_for_alerts_count_stable (t : ℕ) (n : String) :
    ∀ (ss : List SensorData) (acc : List SystemAlert),
      1 ≤ errAlertCount n acc →
      (∀ s ∈ ss, s.name = n ∨ pyContains (criticalMessage s) n = false) →
      errAlertCount n (check_for_alerts t ss acc) = errAlertCount n acc := by
  intro ss
  induction ss with
  | nil => intro acc _ _; rfl
  | cons s tail ih =>
    intro acc hc hside
    show errAlertCount n (List.foldl _ _ (s :: tail)) = _
    rw [List.foldl_cons]
    by_cases hcrit : s.status = "critical"
    · rw [if_pos hcrit]
      rcases hside s (List.mem_cons_self s tail) with hname | hnc
      · rw [hname, if_pos ((hasUnresolvedErrorFor_iff_count n acc).mpr hc)]
        exact ih acc hc (fun x hx => hside x (List.mem_cons_of_mem s hx))
      · by_cases hdup : hasUnresolvedErrorFor s.name acc = true
        · rw [if_pos hdup]
          exact ih acc hc (fun x hx => hside x (List.mem_cons_of_mem s hx))
        · rw [if_neg hdup]
          have hnew : isUnresolvedErrorFor n (criticalAlert t s) = false := by
            unfold isUnresolvedErrorFor criticalAlert
            simp only [Bool.and_eq_true, Bool.not_eq_eq_eq_not, Bool.not_true]
            simp [show (criticalAlert t s).message = criticalMessage s from rfl, hnc]
          have hcount : errAlertCount n (acc ++ [criticalAlert t s]) = errAlertCount n acc := by
            rw [errAlertCount_append_one, hnew]
            simp
          show errAlertCount n (check_for_alerts t tail (acc ++ [criticalAlert t s]))
              = errAlertCount n acc
          rw [ih (acc ++ [criticalAlert t s]) (by rw [hcount]; exact hc)
            (fun x hx => hside x (List.mem_cons_of_mem s hx)), hcount]
    · rw [if_neg hcrit]
      exact ih acc hc (fun x hx => hside x (List.mem_cons_of_mem s hx))

theorem check_for_alerts_count_one (t : ℕ) (n : String) :
    ∀ (ss : List SensorData) (acc : List SystemAlert),
      errAlertCount n acc = 0 →
      (∃ s ∈ ss, s.name = n ∧ s.status = "critical") →
      (∀ s ∈ ss, s.name = n ∨ pyContains (criticalMessage s) n = false) →
      errAlertCount n (check_for_alerts t ss acc) = 1 := by
  intro ss
  induction ss with
  | nil =>
    intro acc _ hex _
    obtain ⟨s, hs, _⟩ := hex
    exact absurd hs (List.not_mem_nil s)
  | cons s tail ih =>
    intro acc h0 hex hside
    show errAlertCount n (List.foldl _ _ (s :: tail)) = 1
    rw [List.foldl_cons]
    by_cases hcrit : s.status = "critical"
    · rw [if_pos hcrit]
      rcases hside s (List.mem_cons_self s tail) with hname | hnc
      · -- the head sensor has the name: its alert is created now
        have hdup : ¬ hasUnresolvedErrorFor s.name acc = true := by
          rw [hname, hasUnresolvedErrorFor_iff_count, h0]
          omega
        rw [if_neg hdup]
        have hnew : isUnresolvedErrorFor n (criticalAlert t s) = true := by
          rw [← hname]
          exact criticalAlert_matches t s
        have hcount : errAlertCount n (acc ++ [criticalAlert t s]) = 1 := by
          rw [errAlertCount_append_one, hnew, h0]
          simp
        show errAlertCount n (check_for_alerts t tail (acc ++ [criticalAlert t s])) = 1
        rw [check_for_alerts_count_stable t n tail (acc ++ [criticalAlert t s])
          (by rw [hcount]) (fun x hx => hside x (List.mem_cons_of_mem s hx)), hcount]
      · -- head sensor does not mention the name: count unchanged either way
        have hnew : isUnresolvedErrorFor n (criticalAlert t s) = false := by
          unfold isUnresolvedErrorFor criticalAlert
          simp [show (criticalAlert t s).message = criticalMessage s from rfl, hnc]
        have hex' : ∃ x ∈ tail, x.name = n ∧ x.status = "critical" := by
          obtain ⟨x, hx, hxn, hxc⟩ := hex
          rcases List.mem_cons.mp hx with rfl | hx'
          · rw [← hxn] at hnc
            rw [pyContains_criticalMessage x] at hnc
            exact absurd hnc (by simp)
          · exact ⟨x, hx', hxn, hxc⟩
        by_cases hdup : hasUnresolvedErrorFor s.name acc = true
        · rw [if_pos hdup]
          exact ih acc h0 hex' (fun x hx => hside x (List.mem_cons_of_mem s hx))
        · rw [if_neg hdup]
          have hcount : errAlertCount n (acc ++ [criticalAlert t s]) = 0 := by
            rw [errAlertCount_append_one, hnew, h0]
            simp
          show errAlertCount n (check_for_alerts t tail (acc ++ [criticalAlert t s])) = 1
          exact ih (acc ++ [criticalAlert t s]) hcount hex'
            (fun x hx => hside x (List.mem_cons_of_mem s hx))
    · rw [if_neg hcrit]
      have hex' : ∃ x ∈ tail, x.name = n ∧ x.status = "critical" := by
        obtain ⟨x, hx, hxn, hxc⟩ := hex
        rcases List.mem_cons.mp hx with rfl | hx'
        · exact absurd hxc hcrit
        · exact ⟨x, hx', hxn, hxc⟩
      exact ih acc h0 hex' (fun x hx => hside x (List.mem_cons_of_mem s hx))

/-- Claim C4: if a sensor is critical in two consecutive update cycles and
the error alert created in the first cycle is not resolved in between,
the second `check_for_alerts` pass appends nothing further: exactly one
unresolved error alert mentioning that sensor's name exists afterwards.
The sensor lists of the two cycles may differ in values and statuses;
`mid` is whatever non-error alerts (predictive warnings, irrigation infos)
the rest of the cycles appended in between. No other sensor's critical
message may mention this sensor's name (true of the system's seven
sensors, whose names are pairwise non-overlapping). -/
theorem check_for_alerts_dedup (t₁ t₂ : ℕ) (sensors₁ sensors₂ : List SensorData)
    (alerts₀ mid : List SystemAlert) (s : SensorData)
    (hs : s ∈ sensors₁) (hcrit : s.status = "critical")
    (h0 : errAlertCount s.name alerts₀ = 0)
    (hstill : ∃ x ∈ sensors₂, x.name = s.name ∧ x.status = "critical")
    (hn1 : ∀ x ∈ sensors₁, x.name = s.name ∨ pyContains (criticalMessage x) s.name = false)
    (hn2 : ∀ x ∈ sensors₂, x.name = s.name ∨ pyContains (criticalMessage x) s.name = false)
    (hmid : ∀ a ∈ mid, a.type ≠ "error") :
    errAlertCount s.name
      (check_for_alerts t₂ sensors₂ (check_for_alerts t₁ sensors₁ alerts₀ ++ mid)) = 1 := by
  have h1 : errAlertCount s.name (check_for_alerts t₁ sensors₁ alerts₀) = 1 :=
    check_for_alerts_count_one t₁ s.name sensors₁ alerts₀ h0 ⟨s, hs, rfl, hcrit⟩ hn1
  have h1m : errAlertCount s.name (check_for_alerts t₁ sensors₁ alerts₀ ++ mid) = 1 := by
    rw [errAlertCount_append_non_error s.name _ mid hmid, h1]
  rw [check_for_alerts_count_stable t₂ s.name sensors₂ _ (by rw [h1m]) hn2, h1m]

/-- Critical soil-moisture sensor of the C4 scenario (value 10 is below
80% of the optimal minimum 20). -/
def c4Moisture : SensorData :=
  { id := "soil_moisture", name := "Soil Moisture", value := 10, unit := "%",
    optMin := 20, optMax := 40, lastUpdated := 0, status := "critical" }

/-- Healthy temperature sensor accompanying the C4 scenario. -/
def c4Temperature : SensorData :=
  { id := "temperature", name := "Temperature", value := 20, unit := "°C",
    optMin := 15, optMax := 30, lastUpdated := 0, status := "optimal" }

/-- Witness for C4: soil moisture critical in two consecutive cycles with
no resolution in between yields exactly one unresolved error alert for it. -/
theorem check_for_alerts_dedup_witness :
    errAlertCount c4Moisture.name
      (check_for_alerts 2 [c4Moisture, c4Temperature]
        (check_for_alerts 1 [c4Moisture, c4Temperature] [] ++ [])) = 1 :=
  check_for_alerts_dedup 1 2 [c4Moisture, c4Temperature] [c4Moisture, c4Temperature] [] []
    c4Moisture (List.mem_cons_self _ _) rfl rfl
    ⟨c4Moisture, List.mem_cons_self _ _, rfl, rfl⟩
    (by
      intro x hx
      rcases List.mem_cons.mp hx with rfl | hx'
      · exact Or.inl rfl
      · rcases List.mem_cons.mp hx' with rfl | hx''
        · exact Or.inr (by decide)
        · exact absurd hx'' (List.not_mem_nil x))
    (by
      intro x hx
      rcases List.mem_cons.mp hx with rfl | hx'
      · exact Or.inl rfl
      · rcases List.mem_cons.mp hx' with rfl | hx''
        · exact Or.inr (by decide)
        · exact absurd hx'' (List.not_mem_nil x))
    (by intro a ha; exact absurd ha (List.not_mem_nil a))

/-! ## Alert id uniqueness (claim C9): decimal representation facts -/

/-- Decode step inverting `Nat.toDigitsCore`: one decimal digit. -/
def decodeStep (a : ℕ) (c : Char) : ℕ := 10 * a + (c.toNat - 48)

theorem digitChar_toNat : ∀ k, k < 10 → (Nat.digitChar k).toNat - 48 = k := by decide

theorem digitChar_isDigit : ∀ k, k < 10 → (Nat.digitChar k).isDigit = true := by decide

theorem decode_toDigitsCore :
    ∀ (fuel n : ℕ) (acc : List Char) (a : ℕ), n < fuel →
      ∃ k : ℕ, (Nat.toDigitsCore 10 fuel n acc).foldl decodeStep a
        = acc.foldl decodeStep (a * 10 ^ k + n) ∧ n < 10 ^ k := by
  intro fuel
  induction fuel with
  | zero => intro n acc a hn; exact absurd hn (Nat.not_lt_zero n)
  | succ f ih =>
    intro n acc a hn
    show ∃ k, (Nat.toDigitsCore 10 (f+1) n acc).foldl decodeStep a = _ ∧ _
    rw [Nat.toDigitsCore]
    by_cases hdiv : n / 10 = 0
    · have hn10 : n < 10 := by omega
      refine ⟨1, ?_, by omega⟩
      simp only [hdiv, if_true, List.foldl_cons]
      rw [show decodeStep a (Nat.digitChar (n % 10)) = 10 * a + n by
        unfold decodeStep
        rw [Nat.mod_eq_of_lt hn10, digitChar_toNat n hn10]]
      ring_nf
    · have hrec : n / 10 < f := by
        have h10 : 10 ≤ n := by
          by_contra hlt
          exact hdiv (Nat.div_eq_of_lt (by omega))
        have := Nat.div_lt_self (by omega : 0 < n) (by omega : 1 < 10)
        omega
      simp only [hdiv, if_false]
      obtain ⟨k, hk, hbound⟩ := ih (n / 10) (Nat.digitChar (n % 10) :: acc) a hrec
      refine ⟨k + 1, ?_, ?_⟩
      · rw [hk, List.foldl_cons]
        congr 1
        unfold decodeStep
        rw [digitChar_toNat (n % 10) (Nat.mod_lt n (by omega))]
        have : n = 10 * (n / 10) + n % 10 := (Nat.div_add_mod n 10).symm
        ring_nf
        omega
      · have : n = 10 * (n / 10) + n % 10 := (Nat.div_add_mod n 10).symm
        have hmod : n % 10 < 10 := Nat.mod_lt n (by omega)
        calc n = 10 * (n / 10) + n % 10 := this
        _ < 10 * 10 ^ k := by omega
        _ = 10 ^ (k + 1) := by ring

theorem decode_repr (n : ℕ) : (Nat.repr n).data.foldl decodeStep 0 = n := by
  have h : (Nat.repr n).data = Nat.toDigits 10 n := rfl
  rw [h, Nat.toDigits]
  obtain ⟨k, hk, _⟩ := decode_toDigitsCore (n + 1) n [] 0 (Nat.lt_succ_self n)
  rw [hk]
  simp

theorem nat_repr_injective : Function.Injective Nat.repr := by
  intro m n h
  have hm := decode_repr m
  have hn := decode_repr n
  rw [h] at hm
  rw [hm] at hn
  exact hn

theorem toDigitsCore_digits :
    ∀ (fuel n : ℕ) (acc : List Char), (∀ c ∈ acc, c.isDigit = true) →
      ∀ c ∈ Nat.toDigitsCore 10 fuel n acc, c.isDigit = true := by
  intro fuel
  induction fuel with
  | zero => intro n acc hacc c hc; exact hacc c hc
  | succ f ih =>
    intro n acc hacc c hc
    rw [Nat.toDigitsCore] at hc
    by_cases hdiv : n / 10 = 0
    · simp only [hdiv, if_true] at hc
      rcases List.mem_cons.mp hc with rfl | hmem
      · exact digitChar_isDigit (n % 10) (Nat.mod_lt n (by omega))
      · exact hacc c hmem
    · simp only [hdiv, if_false] at hc
      refine ih (n / 10) (Nat.digitChar (n % 10) :: acc) ?_ c hc
      intro d hd
      rcases List.mem_cons.mp hd with rfl | hmem
      · exact digitChar_isDigit (n % 10) (Nat.mod_lt n (by omega))
      · exact hacc d hmem

theorem repr_digits (n : ℕ) : ∀ c ∈ (Nat.repr n).data, c.isDigit = true := by
  intro c hc
  have h : (Nat.repr n).data = Nat.toDigits 10 n := rfl
  rw [h, Nat.toDigits] at hc
  exact toDigitsCore_digits (n + 1) n []
    (by intro d hd; exact absurd hd (List.not_mem_nil d)) c hc

/-- Two character lists split into a chunk ending in a non-digit followed
by an all-digit suffix split uniquely. -/
theorem digit_suffix_eq (l₁ d₁ l₂ d₂ : List Char)
    (hd₁ : ∀ c ∈ d₁, c.isDigit = true) (hd₂ : ∀ c ∈ d₂, c.isDigit = true)
    (hl₁ : ∃ c, l₁.getLast? = some c ∧ c.isDigit = false)
    (hl₂ : ∃ c, l₂.getLast? = some c ∧ c.isDigit = false)
    (heq : l₁ ++ d₁ = l₂ ++ d₂) : l₁ = l₂ ∧ d₁ = d₂ := by
  rcases List.append_eq_append_iff.mp heq with ⟨m, hm1, hm2⟩ | ⟨m, hm1, hm2⟩
  · rcases m with _ | ⟨c, m'⟩
    · simp at hm1 hm2
      exact ⟨hm1.symm, hm2⟩
    · exfalso
      obtain ⟨x, hx, hxd⟩ := hl₂
      rw [hm1] at hx
      rw [List.getLast?_append_of_ne_nil l₁ (by simp : (c :: m' : List Char) ≠ [])] at hx
      have hmem : x ∈ c :: m' := List.mem_of_getLast?_eq_some hx
      have : x ∈ d₁ := by rw [hm2]; exact List.mem_append_left d₂ hmem
      rw [hd₁ x this] at hxd
      exact Bool.noConfusion hxd
  · rcases m with _ | ⟨c, m'⟩
    · simp at hm1 hm2
      exact ⟨hm1, hm2.symm⟩
    · exfalso
      obtain ⟨x, hx, hxd⟩ := hl₁
      rw [hm1] at hx
      rw [List.getLast?_append_of_ne_nil l₂ (by simp : (c :: m' : List Char) ≠ [])] at hx
      have hmem : x ∈ c :: m' := List.mem_of_getLast?_eq_some hx
      have : x ∈ d₂ := by rw [hm2]; exact List.mem_append_left d₁ hmem
      rw [hd₂ x this] at hxd
      exact Bool.noConfusion hxd

theorem string_data_inj : ∀ (a b : String), a.data = b.data → a = b
  | ⟨_⟩, ⟨_⟩, rfl => rfl

theorem string_append_cancel_right (a b c : String) (h : a ++ c = b ++ c) : a = b := by
  apply string_data_inj
  have hd : (a ++ c).data = (b ++ c).data := by rw [h]
  rw [String.data_append, String.data_append] at hd
  exact List.append_cancel_right hd

theorem string_append_cancel_left (a b c : String) (h : a ++ b = a ++ c) : b = c := by
  apply string_data_inj
  have hd : (a ++ b).data = (a ++ c).data := by rw [h]
  rw [String.data_append, String.data_append] at hd
  exact List.append_cancel_left hd

theorem underscore_last (s : String) :
    ∃ c, ((s ++ "_").data).getLast? = some c ∧ c.isDigit = false := by
  refine ⟨'_', ?_, by decide⟩
  rw [String.data_append]
  rw [List.getLast?_append_of_ne_nil s.data (by decide : ('_' :: [] : List Char) ≠ [])]
  rfl

/-- A prefix ending in an underscore followed by a decimal timestamp
determines both parts. -/
theorem tagged_id_eq (p₁ p₂ : String) (t₁ t₂ : ℕ)
    (heq : (p₁ ++ "_") ++ Nat.repr t₁ = (p₂ ++ "_") ++ Nat.repr t₂) :
    p₁ = p₂ ∧ t₁ = t₂ := by
  have hd : ((p₁ ++ "_") ++ Nat.repr t₁).data = ((p₂ ++ "_") ++ Nat.repr t₂).data := by
    rw [heq]
  rw [String.data_append, String.data_append] at hd
  obtain ⟨hl, hr⟩ := digit_suffix_eq _ _ _ _ (repr_digits t₁) (repr_digits t₂)
    (underscore_last p₁) (underscore_last p₂) hd
  refine ⟨?_, nat_repr_injective (string_data_inj _ _ hr)⟩
  have := string_data_inj _ _ hl
  exact string_append_cancel_right p₁ p₂ "_" this

theorem criticalAlertId_inj (s₁ s₂ : String) (t₁ t₂ : ℕ)
    (h : criticalAlertId s₁ t₁ = criticalAlertId s₂ t₂) : s₁ = s₂ ∧ t₁ = t₂ := by
  unfold criticalAlertId at h
  obtain ⟨hp, ht⟩ := tagged_id_eq ("critical_" ++ s₁) ("critical_" ++ s₂) t₁ t₂ (by
    simpa [String.append_assoc] using h)
  exact ⟨string_append_cancel_left "critical_" s₁ s₂ hp, ht⟩

theorem predictiveAlertId_inj (s₁ s₂ : String) (t₁ t₂ : ℕ)
    (h : predictiveAlertId s₁ t₁ = predictiveAlertId s₂ t₂) : s₁ = s₂ ∧ t₁ = t₂ := by
  unfold predictiveAlertId at h
  obtain ⟨hp, ht⟩ := tagged_id_eq ("predictive_" ++ s₁) ("predictive_" ++ s₂) t₁ t₂ (by
    simpa [String.append_assoc] using h)
  exact ⟨string_append_cancel_left "predictive_" s₁ s₂ hp, ht⟩

theorem irrigationAlertId_inj (t₁ t₂ : ℕ)
    (h : irrigationAlertId t₁ = irrigationAlertId t₂) : t₁ = t₂ := by
  unfold irrigationAlertId at h
  exact nat_repr_injective (string_data_inj _ _
    (List.append_cancel_left (by
      have hd : ("irrigation_" ++ Nat.repr t₁).data = ("irrigation_" ++ Nat.repr t₂).data := by
        rw [h]
      rw [String.data_append, String.data_append] at hd
      exact hd)))

theorem string_head_ne (p q ra rb : String) (c₁ c₂ : Char) (tl₁ tl₂ : List Char)
    (hp : p.data = c₁ :: tl₁) (hq : q.data = c₂ :: tl₂) (hne : c₁ ≠ c₂) :
    p ++ ra ≠ q ++ rb := by
  intro h
  have hd : (p ++ ra).data = (q ++ rb).data := by rw [h]
  rw [String.data_append, String.data_append, hp, hq] at hd
  simp only [List.cons_append] at hd
  injection hd with h1 _
  exact hne h1

theorem critical_ne_predictive (s₁ s₂ : String) (t₁ t₂ : ℕ) :
    criticalAlertId s₁ t₁ ≠ predictiveAlertId s₂ t₂ := by
  have h1 : criticalAlertId s₁ t₁ = "critical_" ++ (s₁ ++ ("_" ++ Nat.repr t₁)) := by
    unfold criticalAlertId
    simp [String.append_assoc]
  have h2 : predictiveAlertId s₂ t₂ = "predictive_" ++ (s₂ ++ ("_" ++ Nat.repr t₂)) := by
    unfold predictiveAlertId
    simp [String.append_assoc]
  rw [h1, h2]
  exact string_head_ne "critical_" "predictive_" _ _ 'c' 'p' "ritical_".data
    "redictive_".data rfl rfl (by decide)

theorem critical_ne_irrigation (s₁ : String) (t₁ t₂ : ℕ) :
    criticalAlertId s₁ t₁ ≠ irrigationAlertId t₂ := by
  have h1 : criticalAlertId s₁ t₁ = "critical_" ++ (s₁ ++ ("_" ++ Nat.repr t₁)) := by
    unfold criticalAlertId
    simp [String.append_assoc]
  rw [h1, show irrigationAlertId t₂ = "irrigation_" ++ Nat.repr t₂ from rfl]
  exact string_head_ne "critical_" "irrigation_" _ _ 'c' 'i' "ritical_".data
    "rrigation_".data rfl rfl (by decide)

theorem predictive_ne_irrigation (s₁ : String) (t₁ t₂ : ℕ) :
    predictiveAlertId s₁ t₁ ≠ irrigationAlertId t₂ := by
  have h1 : predictiveAlertId s₁ t₁ = "predictive_" ++ (s₁ ++ ("_" ++ Nat.repr t₁)) := by
    unfold predictiveAlertId
    simp [String.append_assoc]
  rw [h1, show irrigationAlertId t₂ = "irrigation_" ++ Nat.repr t₂ from rfl]
  exact string_head_ne "predictive_" "irrigation_" _ _ 'p' 'i' "redictive_".data
    "rrigation_".data rfl rfl (by decide)

/-- An alert id has the shape of a critical, predictive or irrigation id
created at integer time `t`. -/
def alertIdAt (t : ℕ) (i : String) : Prop :=
  (∃ sid, i = criticalAlertId sid t) ∨ (∃ sid, i = predictiveAlertId sid t) ∨
    i = irrigationAlertId t

theorem alertIdAt_time_unique {t₁ t₂ : ℕ} {i : String}
    (h₁ : alertIdAt t₁ i) (h₂ : alertIdAt t₂ i) : t₁ = t₂ := by
  rcases h₁ with ⟨s₁, rfl⟩ | ⟨s₁, rfl⟩ | rfl
  · rcases h₂ with ⟨s₂, h⟩ | ⟨s₂, h⟩ | h
    · exact (criticalAlertId_inj s₁ s₂ t₁ t₂ h).2
    · exact absurd h (critical_ne_predictive s₁ s₂ t₁ t₂)
    · exact absurd h (critical_ne_irrigation s₁ t₁ t₂)
  · rcases h₂ with ⟨s₂, h⟩ | ⟨s₂, h⟩ | h
    · exact absurd h.symm (critical_ne_predictive s₂ s₁ t₂ t₁)
    · exact (predictiveAlertId_inj s₁ s₂ t₁ t₂ h).2
    · exact absurd h (predictive_ne_irrigation s₁ t₁ t₂)
  · rcases h₂ with ⟨s₂, h⟩ | ⟨s₂, h⟩ | h
    · exact absurd h.symm (critical_ne_irrigation s₂ t₂ t₁)
    · exact absurd h.symm (predictive_ne_irrigation s₂ t₂ t₁)
    · exact irrigationAlertId_inj t₁ t₂ h

theorem update_sensor_status_id (s : SensorData) : (update_sensor_status s).id = s.id := by
  unfold update_sensor_status
  split_ifs <;> rfl

theorem cycleSensors_ids (t : ℕ) (r : CycleRand) (sensors : List SensorData) :
    (cycleSensors t r sensors).map (fun s => s.id) = sensors.map (fun s => s.id) := by
  unfold cycleSensors
  rw [List.map_map]
  have h : ((fun s : SensorData => s.id) ∘ (fun p : ℕ × SensorData =>
      update_sensor_status
        { p.2 with value := generate_sensor_reading p.2 (r.draws p.1).1 (r.draws p.1).2,
                   lastUpdated := t }))
      = (fun s : SensorData => s.id) ∘ Prod.snd := by
    funext p
    exact update_sensor_status_id _
  rw [h, ← List.map_map, List.enum_map_snd]

theorem create_predictive_alert_extra (t : ℕ) (s : SensorData) (trend : String)
    (acc : List SystemAlert) :
    ∃ extra, create_predictive_alert t s trend acc = acc ++ extra ∧
      (extra.map (fun a => a.id)).Sublist [predictiveAlertId s.id t] := by
  unfold create_predictive_alert
  split_ifs
  · exact ⟨[], by simp⟩
  · exact ⟨_, rfl, by simp⟩

theorem analyze_patterns_extra (t : ℕ) (sensors : List SensorData)
    (learning : List (List ℚ)) (alerts : List SystemAlert) :
    ∃ extra, analyze_patterns t sensors learning alerts = alerts ++ extra ∧
      (extra.map (fun a => a.id)).Sublist
        (sensors.map (fun s => predictiveAlertId s.id t)) := by
  unfold analyze_patterns
  have key : ∀ (l : List (ℕ × SensorData)) (acc : List SystemAlert),
      ∃ extra, l.foldl
        (fun acc p =>
          if p.1 < (learning.drop (learning.length - 10)).headI.length then
            let values : List ℚ :=
              (learning.drop (learning.length - 10)).map (fun r => r.getD p.1 0)
            let trend :=
              if values.length > 1 then
                if values.getLast?.getD 0 > values.headI * (11/10) then "increasing"
                else if values.getLast?.getD 0 < values.headI * (9/10) then "decreasing"
                else "stable"
              else "stable"
            if trend ≠ "stable" ∧ p.2.status = "warning" then
              create_predictive_alert t p.2 trend acc
            else acc
          else acc) acc
        = acc ++ extra ∧
        (extra.map (fun a => a.id)).Sublist
          (l.map (fun p => predictiveAlertId p.2.id t)) := by
    intro l
    induction l with
    | nil => intro acc; exact ⟨[], by simp⟩
    | cons p l' ih =>
      intro acc
      rw [List.foldl_cons]
      have hhead : ∃ e₀, (if p.1 < (learning.drop (learning.length - 10)).headI.length then
          let values : List ℚ :=
            (learning.drop (learning.length - 10)).map (fun r => r.getD p.1 0)
          let trend :=
            if values.length > 1 then
              if values.getLast?.getD 0 > values.headI * (11/10) then "increasing"
              else if values.getLast?.getD 0 < values.headI * (9/10) then "decreasing"
              else "stable"
            else "stable"
          if trend ≠ "stable" ∧ p.2.status = "warning" then
            create_predictive_alert t p.2 trend acc
          else acc
        else acc) = acc ++ e₀ ∧
          (e₀.map (fun a => a.id)).Sublist [predictiveAlertId p.2.id t] := by
        by_cases h1 : p.1 < (learning.drop (learning.length - 10)).headI.length
        · rw [if_pos h1]
          simp only []
          split_ifs <;>
            first
            | exact create_predictive_alert_extra t p.2 _ acc
            | exact ⟨[], by simp⟩
        · rw [if_neg h1]
          exact ⟨[], by simp⟩
      obtain ⟨e₀, he₀, hs₀⟩ := hhead
      rw [he₀]
      obtain ⟨extra, hex, hsx⟩ := ih (acc ++ e₀)
      rw [hex, List.append_assoc]
      refine ⟨e₀ ++ extra, rfl, ?_⟩
      rw [List.map_append, List.map_cons]
      exact List.Sublist.append hs₀ hsx
  obtain ⟨extra, hex, hsx⟩ := key sensors.enum alerts
  refine ⟨extra, hex, ?_⟩
  have h : sensors.enum.map (fun p => predictiveAlertId p.2.id t)
      = sensors.map (fun s => predictiveAlertId s.id t) := by
    have h2 : (fun p : ℕ × SensorData => predictiveAlertId p.2.id t)
        = (fun s : SensorData => predictiveAlertId s.id t) ∘ Prod.snd := rfl
    rw [h2, ← List.map_map, List.enum_map_snd]
  rw [h] at hsx
  exact hsx

theorem check_for_alerts_extra (t : ℕ) :
    ∀ (sensors : List SensorData) (alerts : List SystemAlert),
      ∃ extra, check_for_alerts t sensors alerts = alerts ++ extra ∧
        (extra.map (fun a => a.id)).Sublist
          (sensors.map (fun s => criticalAlertId s.id t)) := by
  intro sensors
  induction sensors with
  | nil => intro alerts; exact ⟨[], by simp [check_for_alerts], by simp⟩
  | cons s tail ih =>
    intro alerts
    show ∃ extra, List.foldl _ _ (s :: tail) = _ ∧ _
    rw [List.foldl_cons]
    have hhead : ∃ e₀,
        (if s.status = "critical" then
          if hasUnresolvedErrorFor s.name alerts then alerts
          else alerts ++ [criticalAlert t s]
        else alerts) = alerts ++ e₀ ∧
        (e₀.map (fun a => a.id)).Sublist [criticalAlertId s.id t] := by
      split_ifs
      · exact ⟨[], by simp⟩
      · exact ⟨[criticalAlert t s], rfl, by
          simp [criticalAlert]⟩
      · exact ⟨[], by simp⟩
    obtain ⟨e₀, he₀, hs₀⟩ := hhead
    rw [he₀]
    obtain ⟨extra, hex, hsx⟩ := ih (alerts ++ e₀)
    rw [show (check_for_alerts t tail (alerts ++ e₀) : List SystemAlert)
      = List.foldl _ (alerts ++ e₀) tail from rfl] at hex
    rw [hex, List.append_assoc]
    refine ⟨e₀ ++ extra, rfl, ?_⟩
    rw [List.map_append, List.map_cons]
    exact List.Sublist.append hs₀ hsx

theorem learn_from_data_alerts (t : ℕ) (sensors : List SensorData) (reading : List ℚ)
    (learning : List (List ℚ)) (alerts : List SystemAlert) :
    ∃ extra, (learn_from_data t sensors reading learning alerts).2 = alerts ++ extra ∧
      (extra.map (fun a => a.id)).Sublist
        (sensors.map (fun s => predictiveAlertId s.id t)) := by
  unfold learn_from_data
  simp only []
  split_ifs
  · exact analyze_patterns_extra t sensors _ alerts
  · exact ⟨[], by simp⟩
  · exact analyze_patterns_extra t sensors _ alerts
  · exact ⟨[], by simp⟩

theorem auto_irrigate_decomp (t : ℕ) (st : AgriState) :
    ∃ extra, (auto_irrigate t st).alerts = st.alerts ++ extra ∧
      (extra.map (fun a => a.id)).Sublist [irrigationAlertId t] ∧
      (auto_irrigate t st).sensors = st.sensors := by
  unfold auto_irrigate
  rcases hf : st.sensors.find? (fun s => s.id = "soil_moisture") with _ | s <;>
    simp only [hf]
  · refine ⟨[], ?_, ?_, ?_⟩
    · simp
    · simp
    · trivial
  · split_ifs
    · refine ⟨[irrigationAlert t s.value], ?_, ?_, ?_⟩
      · rfl
      · simp [irrigationAlert]
      · rfl
    · refine ⟨[], ?_, ?_, ?_⟩
      · simp
      · simp
      · rfl

/-- One update cycle appends (after the inherited alerts) some predictive
alerts, some critical alerts, then at most one irrigation alert, all with
ids stamped at this cycle's time `t`; and it preserves the sensor id list. -/
theorem update_system_decomp (t : ℕ) (r : CycleRand) (st : AgriState) :
    ∃ e₁ e₂ e₃,
      (update_system t r st).alerts = st.alerts ++ e₁ ++ e₂ ++ e₃ ∧
      (e₁.map (fun a => a.id)).Sublist
        (st.sensors.map (fun s => predictiveAlertId s.id t)) ∧
      (e₂.map (fun a => a.id)).Sublist
        (st.sensors.map (fun s => criticalAlertId s.id t)) ∧
      (e₃.map (fun a => a.id)).Sublist [irrigationAlertId t] ∧
      (update_system t r st).sensors.map (fun s => s.id)
        = st.sensors.map (fun s => s.id) := by
  have hids : ∀ f : String → String,
      (cycleSensors t r st.sensors).map (fun s => f s.id)
        = st.sensors.map (fun s => f s.id) := by
    intro f
    have h1 : (fun s : SensorData => f s.id) = f ∘ (fun s : SensorData => s.id) := rfl
    rw [h1, ← List.map_map, ← List.map_map, cycleSensors_ids]
  obtain ⟨e₁, he₁, hs₁⟩ := learn_from_data_alerts t (cycleSensors t r st.sensors)
    ((cycleSensors t r st.sensors).map (fun s => s.value)) st.learningData st.alerts
  obtain ⟨e₂, he₂, hs₂⟩ := check_for_alerts_extra t (cycleSensors t r st.sensors)
    ((learn_from_data t (cycleSensors t r st.sensors)
      ((cycleSensors t r st.sensors).map (fun s => s.value)) st.learningData st.alerts).2)
  obtain ⟨e₃, he₃, hs₃, hsen₃⟩ := auto_irrigate_decomp t
    ⟨cycleSensors t r st.sensors,
     st.crops.map (fun c =>
       { c with predictedYield := predict_crop_yield st.predictor c (cycleSensors t r st.sensors) }),
     check_for_alerts t (cycleSensors t r st.sensors)
       ((learn_from_data t (cycleSensors t r st.sensors)
         ((cycleSensors t r st.sensors).map (fun s => s.value)) st.learningData st.alerts).2),
     (learn_from_data t (cycleSensors t r st.sensors)
       ((cycleSensors t r st.sensors).map (fun s => s.value)) st.learningData st.alerts).1,
     st.irrigationField1,
     st.predictor⟩
  refine ⟨e₁, e₂, e₃, ?_, ?_, ?_, hs₃, ?_⟩
  · show (auto_irrigate t _).alerts = _
    rw [he₃]
    simp only []
    rw [he₂, he₁]
  · rw [← hids (fun i => predictiveAlertId i t)]
    exact hs₁
  · rw [← hids (fun i => criticalAlertId i t)]
    exact hs₂
  · show ((auto_irrigate t _).sensors).map (fun s => s.id) = _
    rw [hsen₃]
    simp only []
    exact cycleSensors_ids t r st.sensors

theorem resolve_alert_ids (alerts : List SystemAlert) (aid : String) :
    ((resolve_alert alerts aid).2).map (fun a => a.id) = alerts.map (fun a => a.id) := by
  induction alerts with
  | nil => rfl
  | cons a rest ih =>
    simp only [resolve_alert]
    split_ifs
    · simp
    · simp [ih]

/-- The timestamp consumed by an operation, when it creates alerts. -/
def opTime : SysOp → Option ℕ
  | SysOp.update t _ => some t
  | SysOp.resolveA _ => none

/-- Invariant carried across operations: sensor ids are distinct, alert
ids are distinct, and every alert id was minted at one of the timestamps
in `used`. -/
def AlertInv (used : List ℕ) (st : AgriState) : Prop :=
  (st.sensors.map (fun s => s.id)).Nodup ∧
  (st.alerts.map (fun a => a.id)).Nodup ∧
  ∀ i ∈ st.alerts.map (fun a => a.id), ∃ u ∈ used, alertIdAt u i

theorem alertInv_resolve (used : List ℕ) (st : AgriState) (aid : String)
    (h : AlertInv used st) : AlertInv used (stepOp (SysOp.resolveA aid) st) := by
  obtain ⟨h1, h2, h3⟩ := h
  refine ⟨h1, ?_, ?_⟩
  · show (((resolve_alert st.alerts aid).2).map (fun a => a.id)).Nodup
    rw [resolve_alert_ids]
    exact h2
  · show ∀ i ∈ ((resolve_alert st.alerts aid).2).map (fun a => a.id), _
    rw [resolve_alert_ids]
    exact h3

theorem alertInv_update (used : List ℕ) (st : AgriState) (t : ℕ) (r : CycleRand)
    (h : AlertInv used st) (ht : t ∉ used) :
    AlertInv (t :: used) (update_system t r st) := by
  obtain ⟨hsen, hnd, hmem⟩ := h
  obtain ⟨e₁, e₂, e₃, halerts, hsub₁, hsub₂, hsub₃, hsenid⟩ := update_system_decomp t r st
  have hsen' : ((update_system t r st).sensors.map (fun s => s.id)).Nodup := by
    rw [hsenid]; exact hsen
  have hidmap : (update_system t r st).alerts.map (fun a => a.id)
      = st.alerts.map (fun a => a.id) ++ e₁.map (fun a => a.id)
        ++ e₂.map (fun a => a.id) ++ e₃.map (fun a => a.id) := by
    rw [halerts]
    simp [List.map_append]
  -- family facts
  have hP : (st.sensors.map (fun s => predictiveAlertId s.id t)).Nodup := by
    have hinj : Function.Injective (fun sid => predictiveAlertId sid t) :=
      fun a b hab => (predictiveAlertId_inj a b t t hab).1
    have hmm : st.sensors.map (fun s => predictiveAlertId s.id t)
        = (st.sensors.map (fun s => s.id)).map (fun sid => predictiveAlertId sid t) := by
      rw [List.map_map]; rfl
    rw [hmm]
    exact List.Nodup.map hinj hsen
  have hC : (st.sensors.map (fun s => criticalAlertId s.id t)).Nodup := by
    have hinj : Function.Injective (fun sid => criticalAlertId sid t) :=
      fun a b hab => (criticalAlertId_inj a b t t hab).1
    have hmm : st.sensors.map (fun s => criticalAlertId s.id t)
        = (st.sensors.map (fun s => s.id)).map (fun sid => criticalAlertId sid t) := by
      rw [List.map_map]; rfl
    rw [hmm]
    exact List.Nodup.map hinj hsen
  have hat₁ : ∀ i ∈ e₁.map (fun a => a.id), ∃ sid, i = predictiveAlertId sid t := by
    intro i hi
    have := hsub₁.subset hi
    obtain ⟨s, _, hs⟩ := List.mem_map.mp this
    exact ⟨s.id, hs.symm⟩
  have hat₂ : ∀ i ∈ e₂.map (fun a => a.id), ∃ sid, i = criticalAlertId sid t := by
    intro i hi
    have := hsub₂.subset hi
    obtain ⟨s, _, hs⟩ := List.mem_map.mp this
    exact ⟨s.id, hs.symm⟩
  have hat₃ : ∀ i ∈ e₃.map (fun a => a.id), i = irrigationAlertId t := by
    intro i hi
    have := hsub₃.subset hi
    simpa using this
  have hAt : ∀ i, i ∈ e₁.map (fun a => a.id) ++ e₂.map (fun a => a.id)
      ++ e₃.map (fun a => a.id) → alertIdAt t i := by
    intro i hi
    rcases List.mem_append.mp hi with hi' | hi₃
    · rcases List.mem_append.mp hi' with hi₁ | hi₂
      · exact Or.inr (Or.inl ⟨(hat₁ i hi₁).choose, (hat₁ i hi₁).choose_spec⟩)
      · exact Or.inl ⟨(hat₂ i hi₂).choose, (hat₂ i hi₂).choose_spec⟩
    · exact Or.inr (Or.inr (hat₃ i hi₃))
  -- no new id repeats an old one
  have holdnew : ∀ i ∈ st.alerts.map (fun a => a.id),
      ∀ j, j ∈ e₁.map (fun a => a.id) ++ e₂.map (fun a => a.id) ++ e₃.map (fun a => a.id)
      → i ≠ j := by
    intro i hi j hj heq
    obtain ⟨u, hu, hatu⟩ := hmem i hi
    have hatj := hAt j hj
    rw [heq] at hatu
    exact ht (alertIdAt_time_unique hatu hatj ▸ hu)
  -- the three new groups are mutually disjoint
  have hnew : (e₁.map (fun a => a.id) ++ e₂.map (fun a => a.id)
      ++ e₃.map (fun a => a.id)).Nodup := by
    rw [List.append_assoc, List.nodup_append]
    refine ⟨hsub₁.nodup hP, ?_, ?_⟩
    · rw [List.nodup_append]
      refine ⟨hsub₂.nodup hC, hsub₃.nodup (by simp), ?_⟩
      intro i hi₂ hi₃
      obtain ⟨s₂, h₂⟩ := hat₂ i hi₂
      have h₃ := hat₃ i hi₃
      rw [h₂] at h₃
      exact critical_ne_irrigation s₂ t t h₃
    · intro i hi₁ hi
      obtain ⟨s₁, h₁⟩ := hat₁ i hi₁
      rcases List.mem_append.mp hi with hi₂ | hi₃
      · obtain ⟨s₂, h₂⟩ := hat₂ i hi₂
        rw [h₁] at h₂
        exact critical_ne_predictive s₂ s₁ t t h₂.symm
      · have h₃ := hat₃ i hi₃
        rw [h₁] at h₃
        exact predictive_ne_irrigation s₁ t t h₃
  refine ⟨hsen', ?_, ?_⟩
  · rw [hidmap, List.append_assoc, List.append_assoc, List.nodup_append]
    refine ⟨hnd, ?_, ?_⟩
    · rw [← List.append_assoc]
      exact hnew
    · intro i hi hj
      exact holdnew i hi i (by rwa [← List.append_assoc] at hj) rfl
  · intro i hi
    rw [hidmap] at hi
    rw [List.append_assoc, List.append_assoc] at hi
    rcases List.mem_append.mp hi with hiold | hinew
    · obtain ⟨u, hu, hatu⟩ := hmem i hiold
      exact ⟨u, List.mem_cons_of_mem t hu, hatu⟩
    · exact ⟨t, List.mem_cons_self t used, hAt i (by rwa [← List.append_assoc] at hinew)⟩

/-- The seven sensors of `SmartAgricultureSystem.initialize_sensors`
(values start at 0, status optimal). -/
def initSensors : List SensorData :=
  [{ id := "soil_moisture", name := "Soil Moisture", value := 0, unit := "%",
     optMin := 20, optMax := 40, lastUpdated := 0, status := "optimal" },
   { id := "soil_ph", name := "Soil pH", value := 0, unit := "pH",
     optMin := 11/2, optMax := 15/2, lastUpdated := 0, status := "optimal" },
   { id := "temperature", name := "Temperature", value := 0, unit := "°C",
     optMin := 15, optMax := 30, lastUpdated := 0, status := "optimal" },
   { id := "rainfall", name := "Rainfall", value := 0, unit := "mm",
     optMin := 100, optMax := 200, lastUpdated := 0, status := "optimal" },
   { id := "humidity", name := "Humidity", value := 0, unit := "%",
     optMin := 50, optMax := 80, lastUpdated := 0, status := "optimal" },
   { id := "sunlight_hours", name := "Sunlight Hours", value := 0, unit := "hours",
     optMin := 5, optMax := 8, lastUpdated := 0, status := "optimal" },
   { id := "NDVI_index", name := "NDVI Index", value := 0, unit := "",
     optMin := 3/10, optMax := 8/10, lastUpdated := 0, status := "optimal" }]

/-- The three crops of `SmartAgricultureSystem.initialize_crops` (dates
abstracted to 0, predicted yields start at 0). -/
def initCrops : List CropData :=
  [{ cropType := "Wheat", plantedDate := 0, expectedHarvest := 0, predictedYield := 0,
     healthScore := 85, growthStage := "Flowering", healthStatus := "None" },
   { cropType := "Soybean", plantedDate := 0, expectedHarvest := 0, predictedYield := 0,
     healthScore := 92, growthStage := "Maturation", healthStatus := "Mild" },
   { cropType := "Maize", plantedDate := 0, expectedHarvest := 0, predictedYield := 0,
     healthScore := 78, growthStage := "Vegetative", healthStatus := "Moderate" }]

/-- The system's state right after `__init__` with predictor `p` (set by
the entry points after construction). -/
def initAgriState (p : Option PredictorState) : AgriState :=
  { sensors := initSensors, crops := initCrops, alerts := [], learningData := [],
    irrigationField1 := false, predictor := p }

theorem step_fold_inv :
    ∀ (ops : List SysOp) (used : List ℕ) (st : AgriState),
      AlertInv used st →
      (ops.filterMap opTime).Nodup →
      (∀ u ∈ ops.filterMap opTime, u ∉ used) →
      ∃ fin, AlertInv fin (ops.foldl (fun s op => stepOp op s) st) := by
  intro ops
  induction ops with
  | nil => intro used st h _ _; exact ⟨used, h⟩
  | cons op rest ih =>
    intro used st h hnd hout
    rw [List.foldl_cons]
    cases op with
    | update t r =>
      have hfm : (SysOp.update t r :: rest).filterMap opTime
          = t :: rest.filterMap opTime := by
        simp [List.filterMap_cons, opTime]
      rw [hfm] at hnd hout
      have ht : t ∉ used := hout t (List.mem_cons_self t _)
      refine ih (t :: used) (stepOp (SysOp.update t r) st)
        (alertInv_update used st t r h ht) ((List.nodup_cons.mp hnd).2) ?_
      intro u hu
      have hne : u ≠ t := by
        intro heq
        exact (List.nodup_cons.mp hnd).1 (heq ▸ hu)
      intro hmem
      rcases List.mem_cons.mp hmem with heq | hmem'
      · exact hne heq
      · exact hout u (List.mem_cons_of_mem t hu) hmem'
    | resolveA aid =>
      have hfm : (SysOp.resolveA aid :: rest).filterMap opTime
          = rest.filterMap opTime := by
        simp [List.filterMap_cons, opTime]
      rw [hfm] at hnd hout
      exact ih used (stepOp (SysOp.resolveA aid) st)
        (alertInv_resolve used st aid h) hnd hout

/-- Claim C9 (amended): starting from the freshly initialized system, after
any sequence of update cycles and alert resolutions in which the update
cycles use pairwise-distinct integer timestamps, all alerts carry
pairwise-distinct ids. Without the distinct-timestamp condition the claim
fails, see the counterexample: two cycles within the same second mint the
same irrigation alert id. -/
theorem alert_ids_unique (p₀ : Option PredictorState) (ops : List SysOp)
    (hts : (ops.filterMap opTime).Nodup) :
    ((ops.foldl (fun s op => stepOp op s) (initAgriState p₀)).alerts.map
      (fun a => a.id)).Nodup := by
  have hinit : AlertInv [] (initAgriState p₀) := by
    refine ⟨by simp only [initAgriState]; decide, by simp [initAgriState], ?_⟩
    intro i hi
    simp [initAgriState] at hi
  obtain ⟨fin, hinv⟩ := step_fold_inv ops [] (initAgriState p₀) hinit hts
    (by intro u _ hmem; exact absurd hmem (List.not_mem_nil u))
  exact hinv.2.1

/-- Per-sensor random draws producing a soil-moisture reading of exactly
25 for the optimal range (20, 40): `random.random()` draw 1/6 and
`uniform(0.9, 1.1)` draw 25/26. -/
def c9Rand : CycleRand := ⟨fun _ => (1/6, 25/26)⟩

/-- Soil-moisture sensor before the C9 cycles. -/
def c9Sensor0 : SensorData :=
  { id := "soil_moisture", name := "Soil Moisture", value := 35, unit := "%",
    optMin := 20, optMax := 40, lastUpdated := 0, status := "optimal" }

/-- Soil-moisture sensor after a C9 cycle at time 5: value regenerated
to 25, status optimal. -/
def c9Sensor1 : SensorData :=
  { id := "soil_moisture", name := "Soil Moisture", value := 25, unit := "%",
    optMin := 20, optMax := 40, lastUpdated := 5, status := "optimal" }

/-- Single-sensor system state for the C9 counterexample. -/
def c9State : AgriState :=
  { sensors := [c9Sensor0], crops := [], alerts := [], learningData := [],
    irrigationField1 := false, predictor := none }

theorem c9_gen (s : SensorData) (hmin : s.optMin = 20) (hmax : s.optMax = 40) :
    generate_sensor_reading s (1/6) (25/26) = 25 := by
  unfold generate_sensor_reading
  rw [hmin, hmax]
  rw [show ((20:ℚ) + 40) / 2 + (40 - 20) * (3/10) * ((1/6 - 1/2) * 2) = 26 by norm_num]
  rw [show (26:ℚ) * (25/26) = 25 by norm_num]
  rw [round2_eq_floor]
  norm_num

theorem c9_status (s : SensorData) (hmin : s.optMin = 20) (hmax : s.optMax = 40)
    (hval : s.value = 25) : update_sensor_status s = { s with status := "optimal" } := by
  unfold update_sensor_status
  rw [hmin, hmax, hval]
  norm_num

theorem c9_cycleSensors0 : cycleSensors 5 c9Rand [c9Sensor0] = [c9Sensor1] := by
  unfold cycleSensors
  show List.map _ [(0, c9Sensor0)] = [c9Sensor1]
  rw [List.map_cons, List.map_nil]
  congr 1
  have h1 : generate_sensor_reading c9Sensor0 (c9Rand.draws 0).1 (c9Rand.draws 0).2 = 25 :=
    c9_gen c9Sensor0 rfl rfl
  rw [h1, c9_status _ rfl rfl rfl]
  rfl

theorem c9_cycleSensors1 : cycleSensors 5 c9Rand [c9Sensor1] = [c9Sensor1] := by
  unfold cycleSensors
  show List.map _ [(0, c9Sensor1)] = [c9Sensor1]
  rw [List.map_cons, List.map_nil]
  congr 1
  have h1 : generate_sensor_reading c9Sensor1 (c9Rand.draws 0).1 (c9Rand.draws 0).2 = 25 :=
    c9_gen c9Sensor1 rfl rfl
  rw [h1, c9_status _ rfl rfl rfl]
  rfl

theorem c9_find :
    ([c9Sensor1] : List SensorData).find? (fun s => s.id = "soil_moisture")
      = some c9Sensor1 := rfl

theorem c9_check (alerts : List SystemAlert) :
    check_for_alerts 5 [c9Sensor1] alerts = alerts := by
  show List.foldl _ alerts [c9Sensor1] = alerts
  rw [List.foldl_cons, List.foldl_nil]
  rw [if_neg (by decide : ¬ (c9Sensor1.status = "critical"))]

theorem c9_irrigate (alerts : List SystemAlert) (ld : List (List ℚ)) (b : Bool) :
    auto_irrigate 5 ⟨[c9Sensor1], [], alerts, ld, b, none⟩
      = ⟨[c9Sensor1], [], alerts ++ [irrigationAlert 5 25], ld, true, none⟩ := by
  unfold auto_irrigate
  simp only [c9_find]
  rw [if_pos (by norm_num [c9Sensor1] : c9Sensor1.value < 30)]
  rfl

theorem c9_learn1 : learn_from_data 5 [c9Sensor1] [25] [] [] = ([[25]], []) := by
  unfold learn_from_data
  norm_num

theorem c9_learn2 (a : SystemAlert) :
    learn_from_data 5 [c9Sensor1] [25] [[25]] [a] = ([[25], [25]], [a]) := by
  unfold learn_from_data
  norm_num

theorem c9_step0 : update_system 5 c9Rand c9State
    = ⟨[c9Sensor1], [], [irrigationAlert 5 25], [[25]], true, none⟩ := by
  have h1 : update_system 5 c9Rand c9State
      = auto_irrigate 5 ⟨[c9Sensor1], [],
          check_for_alerts 5 [c9Sensor1] (learn_from_data 5 [c9Sensor1] [25] [] []).2,
          (learn_from_data 5 [c9Sensor1] [25] [] []).1, false, none⟩ := by
    unfold update_system
    simp only []
    rw [show cycleSensors 5 c9Rand c9State.sensors = [c9Sensor1] from c9_cycleSensors0]
    rfl
  rw [h1, c9_learn1]
  simp only []
  rw [c9_check []]
  exact c9_irrigate [] [[25]] false

theorem c9_step1 :
    update_system 5 c9Rand ⟨[c9Sensor1], [], [irrigationAlert 5 25], [[25]], true, none⟩
      = ⟨[c9Sensor1], [], [irrigationAlert 5 25, irrigationAlert 5 25],
          [[25], [25]], true, none⟩ := by
  have h1 : update_system 5 c9Rand
        ⟨[c9Sensor1], [], [irrigationAlert 5 25], [[25]], true, none⟩
      = auto_irrigate 5 ⟨[c9Sensor1], [],
          check_for_alerts 5 [c9Sensor1]
            (learn_from_data 5 [c9Sensor1] [25] [[25]] [irrigationAlert 5 25]).2,
          (learn_from_data 5 [c9Sensor1] [25] [[25]] [irrigationAlert 5 25]).1,
          true, none⟩ := by
    unfold update_system
    simp only []
    rw [show cycleSensors 5 c9Rand
      (AgriState.sensors ⟨[c9Sensor1], [], [irrigationAlert 5 25], [[25]], true, none⟩)
      = [c9Sensor1] from c9_cycleSensors1]
    rfl
  rw [h1, c9_learn2]
  simp only []
  rw [c9_check [irrigationAlert 5 25]]
  exact c9_irrigate [irrigationAlert 5 25] [[25], [25]] true

/-- Claim C9, counterexample: two update cycles of the step relation run
within the same integer second (`int(time.time())` equal to 5 twice), with
the soil-moisture reading regenerating below 30 both times, append two
irrigation alerts sharing the id `irrigation_5`: the alert ids in the
system's list are not pairwise distinct. -/
theorem alert_ids_unique_cex :
    (stepOp (SysOp.update 5 c9Rand) (stepOp (SysOp.update 5 c9Rand) c9State)).alerts
      = [irrigationAlert 5 25, irrigationAlert 5 25] ∧
    ¬ ((stepOp (SysOp.update 5 c9Rand)
        (stepOp (SysOp.update 5 c9Rand) c9State)).alerts.map (fun a => a.id)).Nodup := by
  have hfinal : stepOp (SysOp.update 5 c9Rand) (stepOp (SysOp.update 5 c9Rand) c9State)
      = ⟨[c9Sensor1], [], [irrigationAlert 5 25, irrigationAlert 5 25],
          [[25], [25]], true, none⟩ := by
    show update_system 5 c9Rand (update_system 5 c9Rand c9State) = _
    rw [c9_step0, c9_step1]
  rw [hfinal]
  refine ⟨rfl, ?_⟩
  intro h
  rw [show ([irrigationAlert 5 25, irrigationAlert 5 25].map (fun a => a.id))
    = [irrigationAlertId 5, irrigationAlertId 5] from rfl] at h
  exact (List.nodup_cons.mp h).1 (List.mem_cons_self _ _)

/-- Witness for C9 (amended): two cycles at distinct timestamps 1 and 2
with a resolve in between keep all alert ids distinct. -/
theorem alert_ids_unique_witness :
    ((([SysOp.update 1 c9Rand, SysOp.resolveA "x", SysOp.update 2 c9Rand].foldl
      (fun s op => stepOp op s) (initAgriState none)).alerts.map
        (fun a => a.id)).Nodup) :=
  alert_ids_unique none [SysOp.update 1 c9Rand, SysOp.resolveA "x", SysOp.update 2 c9Rand]
    (by simp [List.filterMap_cons, opTime])
